import Mathlib

/-!
Verification development for the real-time activity push fan-out subsystem
(`oae-activity` push logic registered through the discussions package init).

The definitions below are a shallow embedding of the push subsystem source:
the connection registry, the authentication handshake, the subscription
manager, the close-time cleanup, the dispatch/transform pipeline and the two
publish-adapter event listeners.  JavaScript objects are modelled as Lean
structures, the per-stream socket hash as an association list, mutable
connection objects as a store from socket id to connection info (JavaScript
reference semantics), and the asynchronous broker / principal-store /
signature collaborators as explicit oracle parameters.  Broker and socket
side effects are reified as an `Action` trace.
-/

namespace Push

/-- An error object `{code, msg}` as written by `_writeResponse`. -/
structure ErrObj where
  code : Nat
  msg : String
deriving DecidableEq, Repr

/-- Activity payloads are opaque to the push subsystem; we model one as a
string token. -/
abbrev Activity := String

/-- A user principal as fetched by `PrincipalsDAO.getPrincipal`; only the id
is consumed by the push subsystem. -/
structure User where
  id : String
deriving DecidableEq, Repr

/-- The authenticated `Context` attached to a connection on authentication:
the tenant (modelled by its alias, as resolved by `TenantsAPI.getTenant`)
and the fetched user. -/
structure Ctx where
  tenantAlias : String
  user : User
deriving DecidableEq, Repr

/-- The outbound push frame `{resourceId, streamType, activities, format,
numNewActivities}` serialized to the socket by `_handlePushActivity`. -/
structure PushFrame where
  resourceId : String
  streamType : String
  activities : List Activity
  format : String
  numNewActivities : Option Nat
deriving DecidableEq, Repr

/-- The routed/aggregated activity envelope published to the broker and
received by `_handlePushActivity`. -/
structure PushData where
  resourceId : String
  streamType : String
  activities : List Activity
  numNewActivities : Option Nat
deriving DecidableEq, Repr

/-- Observable effects of the push subsystem: socket writes, socket
closes, timeout cancellation, authorization-handler invocations, broker
bind/unbind calls and the dispatch pipeline's completion callback. -/
inductive Action where
  | writeResponse (sid : Nat) (replyTo : Nat) (error : Option ErrObj)
  | writeFrame (sid : Nat) (frame : PushFrame)
  | closeSocket (sid : Nat)
  | clearAuthTimeout (sid : Nat)
  | callAuthz (streamType : String) (resourceId : String)
  | bindQueue (streamId : String)
  | unbindQueue (streamId : String)
  | invokeCallback
  | dispatchAuthenticate (sid : Nat)
  | dispatchSubscribe (sid : Nat)
deriving DecidableEq, Repr

/-- Association-list lookup keyed by first component (models property
access `obj[key]` on the JavaScript hashes). -/
def alookup {β : Type} : List (String × β) → String → Option β
  | [], _ => none
  | (k, v) :: rest, key => if k = key then some v else alookup rest key

/-- Association-list update (models `obj[key] = v`). -/
def aset {β : Type} : List (String × β) → String → β → List (String × β)
  | [], key, v => [(key, v)]
  | (k, w) :: rest, key, v =>
    if k = key then (key, v) :: rest else (k, w) :: aset rest key v

/-- Association-list removal (models `delete obj[key]`). -/
def aremove {β : Type} : List (String × β) → String → List (String × β)
  | [], _ => []
  | (k, w) :: rest, key => if k = key then rest else (k, w) :: aremove rest key

/-- State held for one websocket connection (the `connectionInfo` object of
`registerConnection`): the socket id, the authenticated context (`ctx`,
`null` before authentication), the list of subscribed activity stream ids
(`streams`), and the per-stream requested transformer types
(`transformerTypes`).  The `authenticationTimeout` handle is modelled by the
two flags `timerCancelled` (a `clearTimeout` has been issued) and
`timerFired` (the timeout callback has already run): a JavaScript timeout
runs its callback at most once and never after `clearTimeout`. -/
structure ConnInfo where
  sockId : Nat
  ctx : Option Ctx
  streams : List String
  transformerTypes : List (String × List String)
  timerCancelled : Bool
  timerFired : Bool
deriving DecidableEq, Repr

/-- Node-local mutable state: the store of live connection objects (keyed by
socket id, modelling JavaScript object references), the
`connectionInfosPerStream` hash mapping an activity stream id to the ordered
socket ids registered for it, and — modelled from the spec, since the broker
(`MQ`) is an external collaborator — the set of stream topics this node's
queue is currently bound to (updated by a successful bind and by unbind). -/
structure PushState where
  conns : Nat → Option ConnInfo
  perStream : List (String × List Nat)
  bindings : List String

/-- Replace the stored connection object for a socket id (models mutation of
the shared `connectionInfo` reference). -/
def updateConn (s : PushState) (sid : Nat) (c : ConnInfo) : PushState :=
  { s with conns := fun k => if k = sid then some c else s.conns k }

/-- `AUTHENTICATION_TIMEOUT`: the authentication window in milliseconds. -/
def AUTHENTICATION_TIMEOUT : Nat := 5000

/-- `registerConnection`: the fresh `connectionInfo` created on socket open,
together with the delay of the authentication timer armed at that moment. -/
def registerConnection (sid : Nat) : ConnInfo × Nat :=
  ({ sockId := sid, ctx := none, streams := [], transformerTypes := [],
     timerCancelled := false, timerFired := false }, AUTHENTICATION_TIMEOUT)

/-- Modelled from the spec: the topic routing key equals the serialized
stream identifier `resourceId#streamType` (e.g. `u:cam:abc123#notification`);
`ActivityUtil.createActivityStreamId` itself is an external collaborator. -/
def createActivityStreamId (resourceId streamType : String) : String :=
  resourceId ++ "#" ++ streamType

/-- Modelled from the spec: the internal transformer type
(`ActivityConstants.transformerTypes.INTERNAL`), the default output format
used when a subscribe request specifies none. -/
def internalTransformerType : String := "internal"

/-- External collaborators that `_authenticate` / `_subscribe` consult:
the user-id format validator, the registered transformer kinds
(`ActivityConstants.transformerTypes`) and whether a stream type has a
registered authorization handler (`ActivityRegistry`). -/
structure Env where
  isUserId : String → Bool
  validFormats : List String
  hasAuthz : String → Bool

/-- The signature object of an authentication payload; `none` components
model absent or wrongly-typed JSON fields (failing `isInt` / `notNull`). -/
structure SigPayload where
  expires : Option Int
  signature : Option String
deriving DecidableEq, Repr

/-- The payload of an authentication frame.  `tenantAlias` is the raw JSON
string (the empty / whitespace string fails `notEmpty`). -/
structure AuthPayload where
  tenantAlias : String
  userId : String
  signature : Option SigPayload
deriving DecidableEq, Repr

/-- An authentication frame: client-assigned id plus payload (`none` models
a missing `payload` property). -/
structure AuthMsg where
  id : Nat
  payload : Option AuthPayload
deriving DecidableEq, Repr

/-- Result of the `PrincipalsDAO.getPrincipal` collaborator call. -/
inductive FetchRes where
  | ok (user : User)
  | err (e : ErrObj)
deriving DecidableEq, Repr

/-- `notEmpty` of the validator: fails on an empty or whitespace-only
string (and on a missing field, modelled as the empty string). -/
def notEmptyStr (s : String) : Bool := !(s.data.all Char.isWhitespace)

/-- The first validation pass of `_authenticate` (tenant alias, user id,
signature object), accumulating errors in source order. -/
def authPass1Errors (env : Env) (d : AuthPayload) : List ErrObj :=
  (if notEmptyStr d.tenantAlias then [] else
    [⟨400, "A tenant needs to be provided"⟩]) ++
  (if env.isUserId d.userId then [] else
    [⟨400, "A userId needs to be provided"⟩]) ++
  (if d.signature.isSome then [] else
    [⟨400, "A signature object needs to be provided"⟩])

/-- The second validation pass of `_authenticate` (signature shape). -/
def authPass2Errors (sig : SigPayload) : List ErrObj :=
  (if sig.expires.isSome then [] else
    [⟨400, "Signature must contain an integer expires value"⟩]) ++
  (if sig.signature.isSome then [] else
    [⟨400, "Signature must contain a string signature value"⟩])

/-- Whether an authentication frame passes every validation step before the
principal fetch (payload present, both validator passes clean). -/
def authValidationsPass (env : Env) (m : AuthMsg) : Bool :=
  match m.payload with
  | none => false
  | some d =>
    (authPass1Errors env d).isEmpty &&
      (match d.signature with
       | none => false
       | some sig => (authPass2Errors sig).isEmpty)

/-- `_authenticate`: validates the frame, fetches the principal (oracle
`fetchRes`), attaches the `Context` to the connection, verifies the
signature (oracle `verifySig`, the result of
`Signature.verifyExpiringResourceSignature`), and on success clears the
authentication timeout before acknowledging. -/
def authenticate (env : Env) (s : PushState) (sid : Nat) (m : AuthMsg)
    (fetchRes : FetchRes) (verifySig : Bool) : PushState × List Action :=
  match s.conns sid with
  | none => (s, [])
  | some c =>
    match m.payload with
    | none =>
      (s, [Action.writeResponse sid m.id
            (some ⟨400, "Missing data payload containing the userId and signature"⟩),
          Action.closeSocket sid])
    | some d =>
      match (authPass1Errors env d).head? with
      | some e => (s, [Action.writeResponse sid m.id (some e), Action.closeSocket sid])
      | none =>
        match d.signature with
        | none =>
          (s, [Action.writeResponse sid m.id
                (some ⟨400, "A signature object needs to be provided"⟩),
              Action.closeSocket sid])
        | some sig =>
          match (authPass2Errors sig).head? with
          | some e => (s, [Action.writeResponse sid m.id (some e), Action.closeSocket sid])
          | none =>
            match fetchRes with
            | FetchRes.err e =>
              (s, [Action.writeResponse sid m.id (some e), Action.closeSocket sid])
            | FetchRes.ok user =>
              let ctx : Ctx := ⟨d.tenantAlias, user⟩
              if verifySig then
                (updateConn s sid { c with ctx := some ctx, timerCancelled := true },
                 [Action.clearAuthTimeout sid, Action.writeResponse sid m.id none])
              else
                (updateConn s sid { c with ctx := some ctx },
                 [Action.writeResponse sid m.id (some ⟨401, "Invalid signature"⟩),
                  Action.closeSocket sid])

/-- The `stream` object of a subscribe payload. -/
structure StreamRef where
  resourceId : String
  streamType : String
deriving DecidableEq, Repr

/-- The payload of a subscribe frame (`none` subfields model missing JSON
properties; an empty `resourceId`/`streamType` string is falsy as in the
source's guard). -/
structure SubData where
  stream : Option StreamRef
  format : Option String
  token : Option String
deriving DecidableEq, Repr

/-- A subscribe frame: client-assigned id plus payload. -/
structure SubMsg where
  id : Nat
  payload : Option SubData
deriving DecidableEq, Repr

/-- JavaScript truthiness of the optional `format` field: an absent or
empty-string format counts as unspecified. -/
def fmtOf (format : Option String) : Option String :=
  match format with
  | some f => if f = "" then none else some f
  | none => none

/-- Whether `data.format` is specified but not a registered transformer
kind. -/
def badFormat (env : Env) (format : Option String) : Bool :=
  match fmtOf format with
  | some f => ¬ env.validFormats.contains f
  | none => false

/-- Append a transformer type to a connection's transform list for a
stream (the body of `finish` in `_subscribe`). -/
def pushTransformer (c : ConnInfo) (streamId transformerType : String) : ConnInfo :=
  { c with transformerTypes := (aset c.transformerTypes streamId
      ((alookup c.transformerTypes streamId).getD [] ++ [transformerType])) }

/-- Append a socket id to the `connectionInfosPerStream` list of a stream. -/
def pushPerStream (s : PushState) (streamId : String) (sid : Nat) : PushState :=
  { s with perStream := (aset s.perStream streamId
      ((alookup s.perStream streamId).getD [] ++ [sid])) }

/-- `_subscribe` (with the `_bindQueue` call inlined, as it only consults
`connectionInfosPerStream`): validation, authorization (oracle `authzRes`,
`none` meaning the handler accepted), duplicate-stream check, broker bind
(oracle `bindRes`) and registry/transform bookkeeping.  The asynchronous
bind completion is modelled atomically with the request, per the
single-threaded cooperative scheduling of the platform. -/
def subscribeStep (env : Env) (s : PushState) (sid : Nat) (m : SubMsg)
    (authzRes : Option ErrObj) (bindRes : Option ErrObj) : PushState × List Action :=
  match s.conns sid with
  | none => (s, [])
  | some c =>
    match m.payload with
    | none => (s, [Action.writeResponse sid m.id (some ⟨400, "Missing stream properties"⟩)])
    | some data =>
      match data.stream with
      | none => (s, [Action.writeResponse sid m.id (some ⟨400, "Missing stream properties"⟩)])
      | some stream =>
        if stream.resourceId = "" ∨ stream.streamType = "" then
          (s, [Action.writeResponse sid m.id (some ⟨400, "Missing stream properties"⟩)])
        else if badFormat env data.format then
          (s, [Action.writeResponse sid m.id
                (some ⟨400, "The specified stream format is unknown"⟩)])
        else if ¬ env.hasAuthz stream.streamType then
          (s, [Action.writeResponse sid m.id (some ⟨400, "Unknown stream"⟩)])
        else
          match authzRes with
          | some e =>
            (s, [Action.callAuthz stream.streamType stream.resourceId,
                Action.writeResponse sid m.id (some e)])
          | none =>
            let activityStreamId :=
              createActivityStreamId stream.resourceId stream.streamType
            let transformerType := (fmtOf data.format).getD internalTransformerType
            if activityStreamId ∈ c.streams then
              -- Already bound for this stream on this socket: finish only
              (updateConn s sid (pushTransformer c activityStreamId transformerType),
               [Action.callAuthz stream.streamType stream.resourceId,
                Action.writeResponse sid m.id none])
            else
              let c1 := { c with streams := c.streams ++ [activityStreamId] }
              let s1 := updateConn s sid c1
              if (alookup s1.perStream activityStreamId).isSome then
                -- `_bindQueue` sees an existing listener: immediate callback
                (updateConn (pushPerStream s1 activityStreamId sid) sid
                   (pushTransformer c1 activityStreamId transformerType),
                 [Action.callAuthz stream.streamType stream.resourceId,
                  Action.writeResponse sid m.id none])
              else
                match bindRes with
                | some e =>
                  (s1, [Action.callAuthz stream.streamType stream.resourceId,
                       Action.bindQueue activityStreamId,
                       Action.writeResponse sid m.id (some e)])
                | none =>
                  let s2 := pushPerStream
                    { s1 with bindings := activityStreamId :: s1.bindings }
                    activityStreamId sid
                  (updateConn s2 sid
                     (pushTransformer c1 activityStreamId transformerType),
                   [Action.callAuthz stream.streamType stream.resourceId,
                    Action.bindQueue activityStreamId,
                    Action.writeResponse sid m.id none])

/-- One iteration of the socket-close cleanup loop for a single stream the
closing socket was registered for: a missing per-stream entry is only
logged; a single-entry list triggers an unbind and removal of the entry;
otherwise the closing socket id is spliced out of the list. -/
def closeStream (s : PushState) (sid : Nat) (st : String) : PushState × List Action :=
  match alookup s.perStream st with
  | none => (s, [])
  | some l =>
    if l.length = 1 then
      ({ s with perStream := aremove s.perStream st,
                bindings := s.bindings.erase st },
       [Action.unbindQueue st])
    else
      ({ s with perStream := aset s.perStream st (l.erase sid) }, [])

/-- Fold of `closeStream` over the closing connection's stream list. -/
def closeStreams (s : PushState) (sid : Nat) : List String → PushState × List Action
  | [] => (s, [])
  | st :: rest =>
    let p := closeStream s sid st
    let q := closeStreams p.1 sid rest
    (q.1, p.2 ++ q.2)

/-- The socket `close` handler of `registerConnection`: per-stream cleanup
for every stream of the closing connection. -/
def closeStep (s : PushState) (sid : Nat) : PushState × List Action :=
  match s.conns sid with
  | none => (s, [])
  | some c => closeStreams s sid c.streams

/-- The payload carried by a parsed frame, already read in the shape the
dispatched handler expects. -/
inductive FramePayload where
  | missing
  | auth (p : AuthPayload)
  | sub (p : SubData)
deriving DecidableEq, Repr

/-- An inbound frame after `JSON.parse`: either unparseable, or an object
with its client-assigned id (`0` models a missing or falsy id, failing the
source's `!message.id` check) and `name`. -/
inductive Frame where
  | malformed
  | parsed (id : Nat) (name : String) (payload : FramePayload)
deriving DecidableEq, Repr

/-- The routing decisions of the socket `data` handler, with dispatch to
`_authenticate` / `_subscribe` reified as marker actions: malformed frames
and frames without an id are rejected with a 400 and the socket is closed;
a non-authentication frame on an unauthenticated connection is rejected
with a 401 and the socket is closed. -/
def handleData (sid : Nat) (ctxSet : Bool) : Frame → List Action
  | Frame.malformed =>
    [Action.writeResponse sid 0 (some ⟨400, "Malformed message"⟩), Action.closeSocket sid]
  | Frame.parsed id name _ =>
    if id = 0 then
      [Action.writeResponse sid 0 (some ⟨400, "Missing id on the message"⟩),
       Action.closeSocket sid]
    else if ¬ ctxSet ∧ name ≠ "authentication" then
      [Action.writeResponse sid id
        (some ⟨401, "The first frame should be an authentication frame"⟩),
       Action.closeSocket sid]
    else if name = "authentication" then [Action.dispatchAuthenticate sid]
    else if name = "subscribe" then [Action.dispatchSubscribe sid]
    else []

/-- Whether the connection for a socket id has an attached context. -/
def ctxIsSet (s : PushState) (sid : Nat) : Bool :=
  match s.conns sid with
  | some c => c.ctx.isSome
  | none => false

/-- The full socket `data` handler: the routing of `handleData` composed
with the dispatched handlers, threading the node state. -/
def dataStep (env : Env) (s : PushState) (sid : Nat) (f : Frame)
    (fetchRes : FetchRes) (verifySig : Bool)
    (authzRes : Option ErrObj) (bindRes : Option ErrObj) : PushState × List Action :=
  match f with
  | Frame.malformed =>
    (s, [Action.writeResponse sid 0 (some ⟨400, "Malformed message"⟩),
        Action.closeSocket sid])
  | Frame.parsed id name payload =>
    if id = 0 then
      (s, [Action.writeResponse sid 0 (some ⟨400, "Missing id on the message"⟩),
          Action.closeSocket sid])
    else if ¬ ctxIsSet s sid ∧ name ≠ "authentication" then
      (s, [Action.writeResponse sid id
            (some ⟨401, "The first frame should be an authentication frame"⟩),
          Action.closeSocket sid])
    else if name = "authentication" then
      authenticate env s sid
        ⟨id, match payload with | FramePayload.auth p => some p | _ => none⟩
        fetchRes verifySig
    else if name = "subscribe" then
      subscribeStep env s sid
        ⟨id, match payload with | FramePayload.sub p => some p | _ => none⟩
        authzRes bindRes
    else (s, [])

/-- The body of the authentication-timeout callback together with the
JavaScript timer semantics (modelled from the spec's scheduling section):
the callback runs at most once and never after `clearTimeout`; when it runs
on a still-unauthenticated connection it writes a timeout error keyed to 0
and closes the socket, otherwise it only logs. -/
def fireTimer (s : PushState) (sid : Nat) : PushState × List Action :=
  match s.conns sid with
  | none => (s, [])
  | some c =>
    if c.timerCancelled ∨ c.timerFired then (s, [])
    else
      let s1 := updateConn s sid { c with timerFired := true }
      if c.ctx.isSome then (s1, [])
      else
        (s1, [Action.writeResponse sid 0
               (some ⟨400, "Authentication should happen within 5 seconds after opening the socket"⟩),
             Action.closeSocket sid])

/-- A scheduler event on the node: a timer firing or an inbound frame with
its collaborator oracles. -/
inductive PushEv where
  | fire (sid : Nat)
  | frameEv (sid : Nat) (f : Frame) (fetchRes : FetchRes) (verifySig : Bool)
      (authzRes : Option ErrObj) (bindRes : Option ErrObj)

/-- One scheduler step. -/
def stepEv (env : Env) (s : PushState) : PushEv → PushState × List Action
  | PushEv.fire sid => fireTimer s sid
  | PushEv.frameEv sid f fr v ar br => dataStep env s sid f fr v ar br

/-- The state reached after a list of scheduler events. -/
def runState (env : Env) (s : PushState) : List PushEv → PushState
  | [] => s
  | e :: rest => runState env (stepEv env s e).1 rest

/-- The transform collaborator (`ActivityTransformer.transformActivities`):
`none` models a transform error. -/
abbrev Transform := Option Ctx → List Activity → String → Option (List Activity)

/-- The outbound frame written after a successful transform. -/
def mkPushFrame (data : PushData) (activities : List Activity) (fmt : String) : PushFrame :=
  { resourceId := data.resourceId, streamType := data.streamType,
    activities := activities, format := fmt,
    numNewActivities := data.numNewActivities }

/-- The (connection, transformer) pairs interested in a stream, in dispatch
order: for each registered socket of the stream, one pair per transformer
type it requested. -/
def gatherPairs (s : PushState) (streamId : String) : List (ConnInfo × String) :=
  ((alookup s.perStream streamId).getD []).flatMap fun sid =>
    match s.conns sid with
    | none => []
    | some c =>
      ((alookup c.transformerTypes streamId).getD []).map fun tt => (c, tt)

/-- The delivery phase of `_handlePushActivity`: each pair's transform
completion either fails (logged, no decrement) or writes the rendered frame
and decrements the pending count, invoking the completion callback when the
count reaches zero.  All increments precede all completions because the
transform collaborator suspends via a callback. -/
def deliverLoop (tf : Transform) (data : PushData) :
    List (ConnInfo × String) → Nat → List Action
  | [], _ => []
  | (c, tt) :: rest, todo =>
    match tf c.ctx data.activities tt with
    | none => deliverLoop tf data rest todo
    | some activities =>
      Action.writeFrame c.sockId (mkPushFrame data activities tt) ::
        (if todo - 1 = 0 then
          Action.invokeCallback :: deliverLoop tf data rest (todo - 1)
        else deliverLoop tf data rest (todo - 1))

/-- `_handlePushActivity`: a broker message fans out to every
(connection, transformer) pair registered for its stream. -/
def handlePushActivity (s : PushState) (data : PushData) (tf : Transform) : List Action :=
  let activityStreamId := createActivityStreamId data.resourceId data.streamType
  let pairs := gatherPairs s activityStreamId
  deliverLoop tf data pairs pairs.length

/-- Number of completion-callback invocations in a trace. -/
def countCallback (tr : List Action) : Nat :=
  (tr.filter fun a => match a with | Action.invokeCallback => true | _ => false).length

/-- Number of broker bind calls for a topic in a trace. -/
def countBind (tr : List Action) (st : String) : Nat :=
  (tr.filter fun a => match a with | Action.bindQueue k => k == st | _ => false).length

/-- The frames written to one socket in a trace, in order. -/
def writesTo (sid : Nat) (tr : List Action) : List PushFrame :=
  tr.filterMap fun a =>
    match a with
    | Action.writeFrame k f => if k = sid then some f else none
    | _ => none

/-- Whether a trace contains any broker call. -/
def touchesBroker (tr : List Action) : Bool :=
  tr.any fun a =>
    match a with
    | Action.bindQueue _ => true
    | Action.unbindQueue _ => true
    | _ => false

/-- The aggregated activity info of a delivered-activities event. -/
structure ActivityInfo where
  activities : List Activity
  numNewActivities : Option Nat
deriving DecidableEq, Repr

/-- The `ROUTED_ACTIVITIES` listener: for each resource and stream type of
the emitted batch, publish to the broker unless the stream type's registered
`push.delivery.phase` is `aggregation` (a missing registration or phase also
publishes here, as `selectn` yields `undefined`). -/
def routedActivitiesOn (phaseOf : String → Option String)
    (routedActivities : List (String × List (String × Activity))) :
    List (String × PushData) :=
  routedActivities.flatMap fun p =>
    p.2.filterMap fun q =>
      if phaseOf q.1 ≠ some "aggregation" then
        some (createActivityStreamId p.1 q.1,
          { resourceId := p.1, streamType := q.1,
            activities := [q.2], numNewActivities := none })
      else none

/-- The `DELIVERED_ACTIVITIES` listener: publish only for stream types whose
registered `push.delivery.phase` is `aggregation`. -/
def deliveredActivitiesOn (phaseOf : String → Option String)
    (deliveredActivities : List (String × List (String × ActivityInfo))) :
    List (String × PushData) :=
  deliveredActivities.flatMap fun p =>
    p.2.filterMap fun q =>
      if phaseOf q.1 = some "aggregation" then
        some (createActivityStreamId p.1 q.1,
          { resourceId := p.1, streamType := q.1,
            activities := q.2.activities, numNewActivities := q.2.numNewActivities })
      else none

/-- Whether a listener output contains a publish for a given resource id and
stream type. -/
def publishesFor (out : List (String × PushData)) (r st : String) : Prop :=
  ∃ p ∈ out, p.2.resourceId = r ∧ p.2.streamType = st

/-- Whether an emitted event mentions a given (resource id, stream type)
pair. -/
def pairOccurs {β : Type} (ev : List (String × List (String × β))) (r st : String) : Prop :=
  ∃ sa ∈ ev, sa.1 = r ∧ ∃ x ∈ sa.2, x.1 = st

/-- The per-stream socket list of the registry (empty when untracked). -/
def streamListOf (s : PushState) (st : String) : List Nat :=
  (alookup s.perStream st).getD []

/-- Well-formedness of the node state: per-stream keys are distinct, bound
topics are distinct, no per-stream entry is empty, every bound topic has a
per-stream entry and every per-stream entry's topic is bound.  Together the
last three conjuncts state the binding-iff-nonempty invariant. -/
def WfState (s : PushState) : Prop :=
  (s.perStream.map Prod.fst).Nodup ∧
  s.bindings.Nodup ∧
  (∀ e ∈ s.perStream, e.2 ≠ []) ∧
  (∀ st ∈ s.bindings, (alookup s.perStream st).isSome) ∧
  (∀ e ∈ s.perStream, e.1 ∈ s.bindings)

instance (s : PushState) : Decidable (WfState s) := by
  unfold WfState; infer_instance

/-- The empty node state at process start. -/
def initState : PushState := { conns := fun _ => none, perStream := [], bindings := [] }

/-- A concrete collaborator environment for witness scenarios: every
user-id string accepted, the two registered transformer kinds, and an
authorization handler registered for every stream type. -/
def env0 : Env :=
  { isUserId := fun _ => true,
    validFormats := ["activitystreams", internalTransformerType],
    hasAuthz := fun _ => true }

/-- The connection object of socket 1 right after `registerConnection`. -/
def conn0 : ConnInfo := (registerConnection 1).1

/-- The connection object of socket 2 right after `registerConnection`. -/
def conn2 : ConnInfo := (registerConnection 2).1

/-- A node with one freshly registered connection on socket 1. -/
def s0 : PushState :=
  { conns := fun k => if k = 1 then some conn0 else none,
    perStream := [], bindings := [] }

/-- A node with freshly registered connections on sockets 1 and 2. -/
def sAB : PushState :=
  { conns := fun k => if k = 1 then some conn0 else if k = 2 then some conn2 else none,
    perStream := [], bindings := [] }

/-- A subscribe frame for stream `(r, st)` with an optional format. -/
def msgSub (id : Nat) (r st : String) (fmt : Option String) : SubMsg :=
  ⟨id, some { stream := some ⟨r, st⟩, format := fmt, token := none }⟩

/-- A well-formed authentication frame for the witness scenarios. -/
def msgAuth0 : AuthMsg :=
  ⟨1, some { tenantAlias := "cam", userId := "u:cam:alice",
             signature := some { expires := some 9999, signature := some "sigval" } }⟩

/-- `sAB` after socket 1's subscribe to `c:cam:x#activity` hit a broker
bind failure: the stream id is left on the connection, the registry is
empty. -/
def sAfterFail : PushState :=
  (subscribeStep env0 sAB 1 (msgSub 1 "c:cam:x" "activity" none) none
    (some ⟨500, "broker bind error"⟩)).1

/-- `sAfterFail` after socket 2 successfully subscribes to the same
stream. -/
def sAfterB : PushState :=
  (subscribeStep env0 sAfterFail 2 (msgSub 1 "c:cam:x" "activity" none) none none).1

/-- A single-stream, single-connection well-formed node state used as a
witness input. -/
def sW : PushState :=
  { conns := fun k => if k = 1 then
      some { sockId := 1, ctx := none, streams := ["r#a"],
             transformerTypes := [("r#a", [internalTransformerType])],
             timerCancelled := false, timerFired := false } else none,
    perStream := [("r#a", [1])], bindings := ["r#a"] }

/-- A push envelope for the witness scenarios. -/
def data0 : PushData :=
  { resourceId := "c:cam:doc", streamType := "activity",
    activities := ["act1"], numNewActivities := none }

/-- A transform oracle that renders every payload unchanged. -/
def tf0 : Transform := fun _ acts _ => some acts

/-! ### Association-list lemmas -/

theorem alookup_aset {β : Type} (ps : List (String × β)) (k k' : String) (v : β) :
    alookup (aset ps k v) k' = if k = k' then some v else alookup ps k' := by
  induction ps with
  | nil => simp [aset, alookup]
  | cons e rest ih =>
    obtain ⟨a, b⟩ := e
    by_cases h1 : a = k
    · subst h1
      by_cases h2 : a = k' <;> simp [aset, alookup, h2]
    · by_cases h2 : a = k'
      · subst h2
        have : ¬ k = a := fun h => h1 h.symm
        simp [aset, alookup, h1, this]
      · simp [aset, alookup, h1, h2, ih]

theorem alookup_aremove_ne {β : Type} (ps : List (String × β)) (k k' : String)
    (hne : k ≠ k') : alookup (aremove ps k) k' = alookup ps k' := by
  induction ps with
  | nil => simp [aremove, alookup]
  | cons e rest ih =>
    obtain ⟨a, b⟩ := e
    by_cases h1 : a = k
    · subst h1
      have h2 : ¬ a = k' := hne
      simp [aremove, alookup, h2]
    · by_cases h2 : a = k'
      · subst h2
        simp [aremove, alookup, h1]
      · simp [aremove, alookup, h1, h2, ih]

theorem aremove_sublist {β : Type} (ps : List (String × β)) (k : String) :
    (aremove ps k).Sublist ps := by
  induction ps with
  | nil => simp [aremove]
  | cons e rest ih =>
    obtain ⟨a, b⟩ := e
    by_cases h1 : a = k
    · simp only [aremove, if_pos h1]
      exact (List.Sublist.refl rest).cons _
    · simp only [aremove, if_neg h1]
      exact ih.cons₂ (a, b)

theorem mem_aremove {β : Type} (ps : List (String × β)) (k : String)
    (e : String × β) (he : e ∈ aremove ps k) : e ∈ ps :=
  (aremove_sublist ps k).mem he

theorem mem_aremove_key {β : Type} (ps : List (String × β)) (k : String)
    (hnd : (ps.map Prod.fst).Nodup) :
    ∀ e ∈ aremove ps k, e.1 ≠ k := by
  induction ps with
  | nil => simp [aremove]
  | cons p rest ih =>
    obtain ⟨a, b⟩ := p
    simp only [List.map_cons, List.nodup_cons] at hnd
    intro e he
    by_cases h1 : a = k
    · subst h1
      simp only [aremove, if_pos rfl] at he
      intro hek
      exact hnd.1 (hek ▸ List.mem_map_of_mem Prod.fst he)
    · simp only [aremove, if_neg h1] at he
      rcases List.mem_cons.mp he with h | h
      · subst h
        exact h1
      · exact ih hnd.2 e h

theorem alookup_eq_none {β : Type} (ps : List (String × β)) (k : String) :
    alookup ps k = none ↔ k ∉ ps.map Prod.fst := by
  induction ps with
  | nil => simp [alookup]
  | cons p rest ih =>
    obtain ⟨a, b⟩ := p
    by_cases h1 : a = k
    · subst h1
      simp [alookup]
    · simp only [alookup, if_neg h1, List.map_cons, List.mem_cons, ih]
      constructor
      · rintro h (hk | hk)
        · exact h1 hk.symm
        · exact h hk
      · intro h hk
        exact h (Or.inr hk)

theorem alookup_aremove_self {β : Type} (ps : List (String × β)) (k : String)
    (hnd : (ps.map Prod.fst).Nodup) : alookup (aremove ps k) k = none := by
  rw [alookup_eq_none]
  intro hmem
  rcases List.mem_map.mp hmem with ⟨e, he, hek⟩
  exact mem_aremove_key ps k hnd e he hek

theorem alookup_mem {β : Type} (ps : List (String × β)) (k : String) (v : β)
    (h : alookup ps k = some v) : (k, v) ∈ ps := by
  induction ps with
  | nil => simp [alookup] at h
  | cons p rest ih =>
    obtain ⟨a, b⟩ := p
    by_cases h1 : a = k
    · subst h1
      simp [alookup] at h
      subst h
      exact List.mem_cons_self _ _
    · simp only [alookup, if_neg h1] at h
      exact List.mem_cons_of_mem _ (ih h)

theorem alookup_none_not_mem {β : Type} (ps : List (String × β)) (k : String)
    (h : alookup ps k = none) : k ∉ ps.map Prod.fst :=
  (alookup_eq_none ps k).mp h

theorem mem_aset_elim {β : Type} (ps : List (String × β)) (k : String) (v : β) :
    ∀ e ∈ aset ps k v, e = (k, v) ∨ e ∈ ps := by
  induction ps with
  | nil => simp [aset]
  | cons p rest ih =>
    obtain ⟨a, b⟩ := p
    by_cases h1 : a = k
    · intro e he
      simp only [aset, if_pos h1] at he
      rcases List.mem_cons.mp he with h | h
      · exact Or.inl h
      · exact Or.inr (List.mem_cons_of_mem _ h)
    · intro e he
      simp only [aset, if_neg h1] at he
      rcases List.mem_cons.mp he with h | h
      · exact Or.inr (h ▸ List.mem_cons_self _ _)
      · rcases ih e h with h' | h'
        · exact Or.inl h'
        · exact Or.inr (List.mem_cons_of_mem _ h')

theorem aset_keys_present {β : Type} (ps : List (String × β)) (k : String) (v : β)
    (h : k ∈ ps.map Prod.fst) : (aset ps k v).map Prod.fst = ps.map Prod.fst := by
  induction ps with
  | nil => simp at h
  | cons p rest ih =>
    obtain ⟨a, b⟩ := p
    by_cases h1 : a = k
    · simp [aset, h1]
    · simp only [List.map_cons, List.mem_cons] at h
      rcases h with h | h
      · exact absurd h.symm h1
      · simp [aset, h1, ih h]

theorem aset_keys_absent {β : Type} (ps : List (String × β)) (k : String) (v : β)
    (h : k ∉ ps.map Prod.fst) :
    (aset ps k v).map Prod.fst = ps.map Prod.fst ++ [k] := by
  induction ps with
  | nil => simp [aset]
  | cons p rest ih =>
    obtain ⟨a, b⟩ := p
    simp only [List.map_cons, List.mem_cons] at h
    push_neg at h
    have h1 : ¬ a = k := fun hh => h.1 hh.symm
    simp [aset, h1, ih h.2]

/-! ### State-helper lemmas -/

@[simp] theorem updateConn_conns_self (s : PushState) (sid : Nat) (c : ConnInfo) :
    (updateConn s sid c).conns sid = some c := by
  simp [updateConn]

theorem updateConn_conns_ne (s : PushState) (sid sid' : Nat) (c : ConnInfo)
    (h : sid' ≠ sid) : (updateConn s sid c).conns sid' = s.conns sid' := by
  simp [updateConn, h]

@[simp] theorem updateConn_perStream (s : PushState) (sid : Nat) (c : ConnInfo) :
    (updateConn s sid c).perStream = s.perStream := rfl

@[simp] theorem updateConn_bindings (s : PushState) (sid : Nat) (c : ConnInfo) :
    (updateConn s sid c).bindings = s.bindings := rfl

@[simp] theorem pushPerStream_bindings (s : PushState) (st : String) (sid : Nat) :
    (pushPerStream s st sid).bindings = s.bindings := rfl

@[simp] theorem pushPerStream_conns (s : PushState) (st : String) (sid : Nat) :
    (pushPerStream s st sid).conns = s.conns := rfl

@[simp] theorem pushPerStream_perStream (s : PushState) (st : String) (sid : Nat) :
    (pushPerStream s st sid).perStream =
      aset s.perStream st ((alookup s.perStream st).getD [] ++ [sid]) := rfl

theorem wfState_updateConn (s : PushState) (sid : Nat) (c : ConnInfo)
    (h : WfState s) : WfState (updateConn s sid c) := h

/-- The binding-iff-nonempty invariant, as a consequence of `WfState`: a
topic is bound on this node exactly when its per-stream connection list is
non-empty. -/
theorem wf_binding_iff (s : PushState) (h : WfState s) (st : String) :
    st ∈ s.bindings ↔ streamListOf s st ≠ [] := by
  obtain ⟨hkeys, hbnd, hne, hbs, hsb⟩ := h
  constructor
  · intro hb
    have hs := hbs st hb
    rcases Option.isSome_iff_exists.mp hs with ⟨l, hl⟩
    have : l ≠ [] := hne (st, l) (alookup_mem _ _ _ hl)
    simpa [streamListOf, hl]
  · intro hnil
    rcases hLookup : alookup s.perStream st with _ | l
    · simp [streamListOf, hLookup] at hnil
    · exact hsb (st, l) (alookup_mem _ _ _ hLookup)

/-- `WfState` is preserved by appending a socket to an already-tracked
stream list. -/
theorem wfState_pushPerStream_present (s : PushState) (st : String) (sid : Nat)
    (l : List Nat) (hl : alookup s.perStream st = some l) (h : WfState s) :
    WfState (pushPerStream s st sid) := by
  obtain ⟨hkeys, hbnd, hne, hbs, hsb⟩ := h
  have hkmem : st ∈ s.perStream.map Prod.fst :=
    List.mem_map_of_mem Prod.fst (alookup_mem _ _ _ hl)
  refine ⟨?_, hbnd, ?_, ?_, ?_⟩
  · simpa [aset_keys_present _ _ _ hkmem] using hkeys
  · intro e he
    rcases mem_aset_elim _ _ _ e he with h' | h'
    · subst h'
      simp
    · exact hne e h'
  · intro st' hst'
    rw [pushPerStream_perStream, alookup_aset]
    by_cases hq : st = st'
    · simp [hq]
    · simp only [if_neg hq]
      exact hbs st' hst'
  · intro e he
    rcases mem_aset_elim _ _ _ e he with h' | h'
    · subst h'
      exact hsb (st, l) (alookup_mem _ _ _ hl)
    · exact hsb e h'

/-- `WfState` is preserved by a successful first bind for a stream: the
topic is added to the binding set and a fresh single-entry list is
created. -/
theorem wfState_bind_fresh (s : PushState) (st : String) (sid : Nat)
    (hl : alookup s.perStream st = none) (h : WfState s) :
    WfState (pushPerStream { s with bindings := st :: s.bindings } st sid) := by
  obtain ⟨hkeys, hbnd, hne, hbs, hsb⟩ := h
  have hkabs : st ∉ s.perStream.map Prod.fst := alookup_none_not_mem _ _ hl
  have hbabs : st ∉ s.bindings := by
    intro hmem
    have := hbs st hmem
    simp [hl] at this
  refine ⟨?_, ?_, ?_, ?_, ?_⟩
  · rw [pushPerStream_perStream, aset_keys_absent _ _ _ hkabs]
    simp [List.nodup_append, hkeys, hkabs]
  · exact List.Nodup.cons hbabs hbnd
  · intro e he
    rcases mem_aset_elim _ _ _ e he with h' | h'
    · subst h'
      simp
    · exact hne e h'
  · intro st' hst'
    rw [pushPerStream_perStream, alookup_aset]
    by_cases hq : st = st'
    · simp [hq]
    · simp only [if_neg hq]
      rcases List.mem_cons.mp hst' with h' | h'
      · exact absurd h'.symm hq
      · exact hbs st' h'
  · intro e he
    rcases mem_aset_elim _ _ _ e he with h' | h'
    · subst h'
      exact List.mem_cons_self _ _
    · exact List.mem_cons_of_mem _ (hsb e h')

/-- `WfState` is preserved by the per-stream close cleanup. -/
theorem wfState_closeStream (s : PushState) (sid : Nat) (st : String)
    (h : WfState s) : WfState (closeStream s sid st).1 := by
  obtain ⟨hkeys, hbnd, hne, hbs, hsb⟩ := h
  rcases hLookup : alookup s.perStream st with _ | l
  · simpa [closeStream, hLookup] using ⟨hkeys, hbnd, hne, hbs, hsb⟩
  · by_cases hlen : l.length = 1
    · simp only [closeStream, hLookup, if_pos hlen]
      refine ⟨?_, ?_, ?_, ?_, ?_⟩
      · exact List.Nodup.sublist ((aremove_sublist _ _).map Prod.fst) hkeys
      · exact List.Nodup.erase _ hbnd
      · intro e he
        exact hne e (mem_aremove _ _ e he)
      · intro st' hst'
        have h' := (List.Nodup.mem_erase_iff hbnd).mp hst'
        rw [alookup_aremove_ne _ _ _ (Ne.symm h'.1)]
        exact hbs st' h'.2
      · intro e he
        have hmem := hsb e (mem_aremove _ _ e he)
        have hnek := mem_aremove_key _ _ hkeys e he
        exact (List.mem_erase_of_ne hnek).mpr hmem
    · simp only [closeStream, hLookup, if_neg hlen]
      have hkmem : st ∈ s.perStream.map Prod.fst :=
        List.mem_map_of_mem Prod.fst (alookup_mem _ _ _ hLookup)
      refine ⟨?_, hbnd, ?_, ?_, ?_⟩
      · simpa [aset_keys_present _ _ _ hkmem] using hkeys
      · intro e he
        rcases mem_aset_elim _ _ _ e he with h' | h'
        · subst h'
          simp only [ne_eq]
          intro hnil
          have hl0 : l ≠ [] := hne (st, l) (alookup_mem _ _ _ hLookup)
          have h0 : l.length ≠ 0 := fun hz => hl0 (List.length_eq_zero.mp hz)
          have hlen2 : (l.erase sid).length = 0 := by rw [hnil]; rfl
          rw [List.length_erase] at hlen2
          by_cases hm : sid ∈ l
          · rw [if_pos hm] at hlen2
            omega
          · rw [if_neg hm] at hlen2
            omega
        · exact hne e h'
      · intro st' hst'
        rw [alookup_aset]
        by_cases hq : st = st'
        · simp [hq]
        · simp only [if_neg hq]
          exact hbs st' hst'
      · intro e he
        rcases mem_aset_elim _ _ _ e he with h' | h'
        · subst h'
          exact hsb (st, l) (alookup_mem _ _ _ hLookup)
        · exact hsb e h'

/-- `WfState` is preserved by the close cleanup over any stream list. -/
theorem wfState_closeStreams (sid : Nat) :
    ∀ (l : List String) (s : PushState), WfState s → WfState (closeStreams s sid l).1 := by
  intro l
  induction l with
  | nil => intro s h; simpa [closeStreams] using h
  | cons st rest ih =>
    intro s h
    simp only [closeStreams]
    exact ih _ (wfState_closeStream s sid st h)

/-- `WfState` is preserved by the socket close handler. -/
theorem wfState_closeStep (s : PushState) (sid : Nat) (h : WfState s) :
    WfState (closeStep s sid).1 := by
  unfold closeStep
  rcases s.conns sid with _ | c
  · exact h
  · exact wfState_closeStreams sid c.streams s h

/-- Closing cleanup for one stream leaves every other stream's registry
entry untouched and issues no unbind for it. -/
theorem closeStream_frame (s : PushState) (sid : Nat) (st st' : String)
    (hne : st' ≠ st) :
    alookup (closeStream s sid st').1.perStream st = alookup s.perStream st ∧
      Action.unbindQueue st ∉ (closeStream s sid st').2 := by
  rcases hLookup : alookup s.perStream st' with _ | l
  · simp [closeStream, hLookup]
  · by_cases hlen : l.length = 1
    · simp only [closeStream, hLookup, if_pos hlen]
      refine ⟨alookup_aremove_ne _ _ _ hne, ?_⟩
      intro hc
      simp only [List.mem_singleton, Action.unbindQueue.injEq] at hc
      exact hne hc.symm
    · simp only [closeStream, hLookup, if_neg hlen]
      constructor
      · rw [alookup_aset, if_neg hne]
      · simp

/-- Closing cleanup preserves the keys of the registry being distinct. -/
theorem closeStream_keys_nodup (s : PushState) (sid : Nat) (st : String)
    (h : (s.perStream.map Prod.fst).Nodup) :
    ((closeStream s sid st).1.perStream.map Prod.fst).Nodup := by
  rcases hLookup : alookup s.perStream st with _ | l
  · simpa [closeStream, hLookup] using h
  · by_cases hlen : l.length = 1
    · simp only [closeStream, hLookup, if_pos hlen]
      exact List.Nodup.sublist ((aremove_sublist _ _).map Prod.fst) h
    · simp only [closeStream, hLookup, if_neg hlen]
      have hkmem : st ∈ s.perStream.map Prod.fst :=
        List.mem_map_of_mem Prod.fst (alookup_mem _ _ _ hLookup)
      simpa [aset_keys_present _ _ _ hkmem] using h

/-- Close cleanup over a stream list not containing a topic leaves that
topic's registry entry untouched and issues no unbind for it. -/
theorem closeStreams_frame (sid : Nat) (st : String) :
    ∀ (l : List String) (s : PushState), st ∉ l →
      alookup (closeStreams s sid l).1.perStream st = alookup s.perStream st ∧
        Action.unbindQueue st ∉ (closeStreams s sid l).2 := by
  intro l
  induction l with
  | nil => intro s _; simp [closeStreams]
  | cons x rest ih =>
    intro s hmem
    have hx : x ≠ st := by
      rintro rfl
      exact hmem (List.mem_cons_self _ _)
    have hrest : st ∉ rest := fun h => hmem (List.mem_cons_of_mem _ h)
    have hframe := closeStream_frame s sid st x hx
    have hr := ih (closeStream s sid x).1 hrest
    simp only [closeStreams]
    refine ⟨hr.1.trans hframe.1, ?_⟩
    simp only [List.mem_append]
    rintro (h | h)
    · exact hframe.2 h
    · exact hr.2 h

/-- `WfState` is preserved by the subscribe handler, including both broker
outcomes and every validation branch. -/
theorem wfState_subscribeStep (env : Env) (s : PushState) (sid : Nat) (m : SubMsg)
    (authzRes bindRes : Option ErrObj) (h : WfState s) :
    WfState (subscribeStep env s sid m authzRes bindRes).1 := by
  rcases hc : s.conns sid with _ | c
  · simpa [subscribeStep, hc] using h
  rcases hdata : m.payload with _ | data
  · simpa [subscribeStep, hc, hdata] using h
  rcases hstream : data.stream with _ | stream
  · simpa [subscribeStep, hc, hdata, hstream] using h
  by_cases h1 : stream.resourceId = "" ∨ stream.streamType = ""
  · simpa [subscribeStep, hc, hdata, hstream, h1] using h
  by_cases h2 : badFormat env data.format
  · simpa [subscribeStep, hc, hdata, hstream, h1, h2] using h
  by_cases h3 : env.hasAuthz stream.streamType
  case neg => simpa [subscribeStep, hc, hdata, hstream, h1, h2, h3] using h
  rcases authzRes with _ | ae
  swap
  · simpa [subscribeStep, hc, hdata, hstream, h1, h2, h3] using h
  by_cases h4 : createActivityStreamId stream.resourceId stream.streamType ∈ c.streams
  · simp only [subscribeStep, hc, hdata, hstream, if_neg h1, h2, Bool.false_eq_true,
      if_false, h3, not_true, if_pos h4]
    exact wfState_updateConn _ _ _ h
  by_cases h5 : (alookup s.perStream
      (createActivityStreamId stream.resourceId stream.streamType)).isSome
  · simp only [subscribeStep, hc, hdata, hstream, if_neg h1, h2, Bool.false_eq_true,
      if_false, h3, not_true, if_neg h4, updateConn_perStream, h5, if_true]
    rcases Option.isSome_iff_exists.mp h5 with ⟨l, hl⟩
    exact wfState_updateConn _ _ _
      (wfState_pushPerStream_present _ _ _ l hl (wfState_updateConn _ _ _ h))
  · have hl : alookup s.perStream
        (createActivityStreamId stream.resourceId stream.streamType) = none :=
      Option.not_isSome_iff_eq_none.mp h5
    rcases bindRes with _ | be
    · simp only [subscribeStep, hc, hdata, hstream, if_neg h1, h2, Bool.false_eq_true,
        if_false, h3, not_true, if_neg h4, updateConn_perStream, h5, if_false]
      exact wfState_updateConn _ _ _
        (wfState_bind_fresh (updateConn s sid
          { c with streams := c.streams ++
              [createActivityStreamId stream.resourceId stream.streamType] })
          _ sid hl (wfState_updateConn _ _ _ h))
    · simp only [subscribeStep, hc, hdata, hstream, if_neg h1, h2, Bool.false_eq_true,
        if_false, h3, not_true, if_neg h4, updateConn_perStream, h5, if_false]
      exact wfState_updateConn _ _ _ h

/-- Branch behavior of the close cleanup for a tracked stream of the
closing connection: a single-entry list yields an unbind and entry removal;
a longer list yields no unbind and only a splice of the closing socket. -/
theorem closeStreams_spec (sid : Nat) (st : String) :
    ∀ (l : List String) (s : PushState), l.Nodup → st ∈ l →
      (s.perStream.map Prod.fst).Nodup →
      ∀ ll, alookup s.perStream st = some ll →
      ((ll.length = 1 →
          Action.unbindQueue st ∈ (closeStreams s sid l).2 ∧
          alookup (closeStreams s sid l).1.perStream st = none) ∧
       (ll.length ≠ 1 →
          Action.unbindQueue st ∉ (closeStreams s sid l).2 ∧
          alookup (closeStreams s sid l).1.perStream st = some (ll.erase sid))) := by
  intro l
  induction l with
  | nil => intro s _ hmem; exact absurd hmem (List.not_mem_nil st)
  | cons x rest ih =>
    intro s hnd hmem hkeys ll hll
    have hndr : rest.Nodup := hnd.of_cons
    by_cases hx : x = st
    · subst hx
      have hrest : x ∉ rest := (List.nodup_cons.mp hnd).1
      constructor
      · intro hlen
        have hcs : closeStream s sid x =
            ({ s with perStream := aremove s.perStream x,
                      bindings := s.bindings.erase x }, [Action.unbindQueue x]) := by
          simp [closeStream, hll, hlen]
        have hnone : alookup (closeStream s sid x).1.perStream x = none := by
          rw [hcs]
          exact alookup_aremove_self _ _ hkeys
        have hframe := closeStreams_frame sid x rest (closeStream s sid x).1 hrest
        constructor
        · simp only [closeStreams]
          rw [hcs]
          simp
        · simp only [closeStreams]
          rw [hframe.1, hnone]
      · intro hlen
        have hcs : closeStream s sid x =
            ({ s with perStream := aset s.perStream x (ll.erase sid) }, []) := by
          simp [closeStream, hll, hlen]
        have hsome : alookup (closeStream s sid x).1.perStream x = some (ll.erase sid) := by
          rw [hcs]
          simp [alookup_aset]
        have hframe := closeStreams_frame sid x rest (closeStream s sid x).1 hrest
        constructor
        · simp only [closeStreams, List.mem_append]
          rintro (hin | hin)
          · rw [hcs] at hin
            simp at hin
          · exact hframe.2 hin
        · simp only [closeStreams]
          rw [hframe.1, hsome]
    · have hxne : x ≠ st := hx
      have hmem2 : st ∈ rest := by
        rcases List.mem_cons.mp hmem with h' | h'
        · exact absurd h'.symm hx
        · exact h'
      have hframe := closeStream_frame s sid st x hxne
      have hkeys2 := closeStream_keys_nodup s sid x hkeys
      have hll2 : alookup (closeStream s sid x).1.perStream st = some ll :=
        hframe.1.trans hll
      have hr := ih (closeStream s sid x).1 hndr hmem2 hkeys2 ll hll2
      constructor
      · intro hlen
        have := hr.1 hlen
        constructor
        · simp only [closeStreams, List.mem_append]
          exact Or.inr this.1
        · simpa only [closeStreams] using this.2
      · intro hlen
        have := hr.2 hlen
        constructor
        · simp only [closeStreams, List.mem_append]
          rintro (hin | hin)
          · exact hframe.2 hin
          · exact this.1 hin
        · simpa only [closeStreams] using this.2

/-- Characterization of a successful subscribe to a stream that is fresh on
both the connection and the node: one authorization call, one broker bind,
a success acknowledgment, the stream and transformer recorded on the
connection, a fresh single-entry registry list and a new binding. -/
theorem subscribe_fresh_ok (env : Env) (s : PushState) (sid : Nat) (m : SubMsg)
    (c : ConnInfo) (data : SubData) (stream : StreamRef)
    (hc : s.conns sid = some c) (hdata : m.payload = some data)
    (hstream : data.stream = some stream)
    (h1 : ¬(stream.resourceId = "" ∨ stream.streamType = ""))
    (h2 : ¬ badFormat env data.format)
    (h3 : env.hasAuthz stream.streamType)
    (h4 : createActivityStreamId stream.resourceId stream.streamType ∉ c.streams)
    (h5 : alookup s.perStream
      (createActivityStreamId stream.resourceId stream.streamType) = none) :
    (subscribeStep env s sid m none none).2 =
      [Action.callAuthz stream.streamType stream.resourceId,
       Action.bindQueue (createActivityStreamId stream.resourceId stream.streamType),
       Action.writeResponse sid m.id none] ∧
    (subscribeStep env s sid m none none).1.conns sid =
      some (pushTransformer
        { c with streams := c.streams ++
            [createActivityStreamId stream.resourceId stream.streamType] }
        (createActivityStreamId stream.resourceId stream.streamType)
        ((fmtOf data.format).getD internalTransformerType)) ∧
    (∀ k, k ≠ sid → (subscribeStep env s sid m none none).1.conns k = s.conns k) ∧
    alookup (subscribeStep env s sid m none none).1.perStream
      (createActivityStreamId stream.resourceId stream.streamType) = some [sid] ∧
    (∀ st', st' ≠ createActivityStreamId stream.resourceId stream.streamType →
      alookup (subscribeStep env s sid m none none).1.perStream st' =
        alookup s.perStream st') ∧
    (subscribeStep env s sid m none none).1.bindings =
      createActivityStreamId stream.resourceId stream.streamType :: s.bindings := by
  have h5s : ¬ (alookup s.perStream
      (createActivityStreamId stream.resourceId stream.streamType)).isSome := by
    simp [h5]
  refine ⟨?_, ?_, ?_, ?_, ?_, ?_⟩
  · simp [subscribeStep, hc, hdata, hstream, h1, h2, h3, h4, h5s]
  · simp [subscribeStep, hc, hdata, hstream, h1, h2, h3, h4, h5s, updateConn]
  · intro k hk
    simp [subscribeStep, hc, hdata, hstream, h1, h2, h3, h4, h5s, updateConn, hk]
  · simp [subscribeStep, hc, hdata, hstream, h1, h2, h3, h4, h5s, alookup_aset, h5]
  · intro st' hst'
    simp only [subscribeStep, hc, hdata, hstream, if_neg h1, h2, Bool.false_eq_true,
      if_false, h3, not_true, if_neg h4, updateConn_perStream, h5s, pushPerStream_perStream,
      alookup_aset]
    rw [if_neg (fun h : createActivityStreamId stream.resourceId stream.streamType = st' =>
      hst' h.symm)]
  · simp [subscribeStep, hc, hdata, hstream, h1, h2, h3, h4, h5s]

/-- Characterization of a subscribe whose broker bind fails: the error is
relayed, the registry and bindings are untouched, no transformer is
recorded, but the stream id remains pushed on the connection's `streams`
list. -/
theorem subscribe_fresh_fail (env : Env) (s : PushState) (sid : Nat) (m : SubMsg)
    (c : ConnInfo) (data : SubData) (stream : StreamRef) (e : ErrObj)
    (hc : s.conns sid = some c) (hdata : m.payload = some data)
    (hstream : data.stream = some stream)
    (h1 : ¬(stream.resourceId = "" ∨ stream.streamType = ""))
    (h2 : ¬ badFormat env data.format)
    (h3 : env.hasAuthz stream.streamType)
    (h4 : createActivityStreamId stream.resourceId stream.streamType ∉ c.streams)
    (h5 : alookup s.perStream
      (createActivityStreamId stream.resourceId stream.streamType) = none) :
    (subscribeStep env s sid m none (some e)).2 =
      [Action.callAuthz stream.streamType stream.resourceId,
       Action.bindQueue (createActivityStreamId stream.resourceId stream.streamType),
       Action.writeResponse sid m.id (some e)] ∧
    (subscribeStep env s sid m none (some e)).1.conns sid =
      some { c with streams := c.streams ++
        [createActivityStreamId stream.resourceId stream.streamType] } ∧
    (∀ k, k ≠ sid → (subscribeStep env s sid m none (some e)).1.conns k = s.conns k) ∧
    (subscribeStep env s sid m none (some e)).1.perStream = s.perStream ∧
    (subscribeStep env s sid m none (some e)).1.bindings = s.bindings := by
  have h5s : ¬ (alookup s.perStream
      (createActivityStreamId stream.resourceId stream.streamType)).isSome := by
    simp [h5]
  refine ⟨?_, ?_, ?_, ?_, ?_⟩
  · simp [subscribeStep, hc, hdata, hstream, h1, h2, h3, h4, h5s]
  · simp [subscribeStep, hc, hdata, hstream, h1, h2, h3, h4, h5s, updateConn]
  · intro k hk
    simp [subscribeStep, hc, hdata, hstream, h1, h2, h3, h4, h5s, updateConn, hk]
  · simp [subscribeStep, hc, hdata, hstream, h1, h2, h3, h4, h5s]
  · simp [subscribeStep, hc, hdata, hstream, h1, h2, h3, h4, h5s]

/-- Characterization of a repeat subscribe for a stream already on the
connection (e.g. under a second format): the authorization handler is
invoked again, the new transformer type is appended, a success response is
sent, and the broker and registry are untouched. -/
theorem subscribe_dup (env : Env) (s : PushState) (sid : Nat) (m : SubMsg)
    (c : ConnInfo) (data : SubData) (stream : StreamRef) (bindRes : Option ErrObj)
    (hc : s.conns sid = some c) (hdata : m.payload = some data)
    (hstream : data.stream = some stream)
    (h1 : ¬(stream.resourceId = "" ∨ stream.streamType = ""))
    (h2 : ¬ badFormat env data.format)
    (h3 : env.hasAuthz stream.streamType)
    (h4 : createActivityStreamId stream.resourceId stream.streamType ∈ c.streams) :
    (subscribeStep env s sid m none bindRes).2 =
      [Action.callAuthz stream.streamType stream.resourceId,
       Action.writeResponse sid m.id none] ∧
    (subscribeStep env s sid m none bindRes).1.conns sid =
      some (pushTransformer c
        (createActivityStreamId stream.resourceId stream.streamType)
        ((fmtOf data.format).getD internalTransformerType)) ∧
    (∀ k, k ≠ sid → (subscribeStep env s sid m none bindRes).1.conns k = s.conns k) ∧
    (subscribeStep env s sid m none bindRes).1.perStream = s.perStream ∧
    (subscribeStep env s sid m none bindRes).1.bindings = s.bindings := by
  refine ⟨?_, ?_, ?_, ?_, ?_⟩
  · simp [subscribeStep, hc, hdata, hstream, h1, h2, h3, h4]
  · simp [subscribeStep, hc, hdata, hstream, h1, h2, h3, h4, updateConn]
  · intro k hk
    simp [subscribeStep, hc, hdata, hstream, h1, h2, h3, h4, updateConn, hk]
  · simp [subscribeStep, hc, hdata, hstream, h1, h2, h3, h4]
  · simp [subscribeStep, hc, hdata, hstream, h1, h2, h3, h4]

@[simp] theorem pushTransformer_streams (c : ConnInfo) (streamId t : String) :
    (pushTransformer c streamId t).streams = c.streams := rfl

@[simp] theorem pushTransformer_sockId (c : ConnInfo) (streamId t : String) :
    (pushTransformer c streamId t).sockId = c.sockId := rfl

@[simp] theorem pushTransformer_ctx (c : ConnInfo) (streamId t : String) :
    (pushTransformer c streamId t).ctx = c.ctx := rfl

theorem pushTransformer_lookup (c : ConnInfo) (streamId t : String) :
    alookup (pushTransformer c streamId t).transformerTypes streamId =
      some ((alookup c.transformerTypes streamId).getD [] ++ [t]) := by
  simp [pushTransformer, alookup_aset]

/-- A format that is registered and non-empty passes the format check. -/
theorem badFormat_valid (env : Env) (f : String) (hne : f ≠ "")
    (hmem : f ∈ env.validFormats) : ¬ badFormat env (some f) := by
  simp [badFormat, fmtOf, hne, List.contains, hmem]

/-- An absent format passes the format check. -/
theorem badFormat_none (env : Env) : ¬ badFormat env none := by
  simp [badFormat, fmtOf]

/-- The dispatch pairs of a stream tracked for exactly one socket. -/
theorem gatherPairs_single (s : PushState) (streamId : String) (sid : Nat)
    (c : ConnInfo) (hps : alookup s.perStream streamId = some [sid])
    (hc : s.conns sid = some c) :
    gatherPairs s streamId =
      ((alookup c.transformerTypes streamId).getD []).map (fun tt => (c, tt)) := by
  simp [gatherPairs, streamListOf, hps, hc]

/-- With every transform succeeding, the delivery loop writes one frame per
pair and then invokes the completion callback exactly at the end. -/
theorem deliverLoop_all_success (tf : Transform) (data : PushData) :
    ∀ pairs : List (ConnInfo × String), pairs ≠ [] →
      (∀ p ∈ pairs, (tf p.1.ctx data.activities p.2).isSome) →
      deliverLoop tf data pairs pairs.length =
        pairs.map (fun p => Action.writeFrame p.1.sockId
          (mkPushFrame data ((tf p.1.ctx data.activities p.2).getD []) p.2)) ++
          [Action.invokeCallback] := by
  intro pairs
  induction pairs with
  | nil => intro hne; exact absurd rfl hne
  | cons p rest ih =>
    intro _ hall
    obtain ⟨c, tt⟩ := p
    have hp := hall (c, tt) (List.mem_cons_self _ _)
    rcases htf : tf c.ctx data.activities tt with _ | acts
    · rw [htf] at hp
      simp at hp
    rcases hrest : rest with _ | ⟨q, tl⟩
    · simp [deliverLoop, htf]
    · rw [← hrest]
      have hlen : rest.length ≠ 0 := by
        rw [hrest]
        simp
      simp only [deliverLoop, htf, List.length_cons, Nat.add_sub_cancel]
      rw [if_neg hlen]
      rw [ih (by rw [hrest]; simp)
        (fun q hq => hall q (List.mem_cons_of_mem _ hq))]
      simp [htf]

/-- If fewer transforms succeed than the pending count, the completion
callback is never invoked. -/
theorem deliverLoop_undershoot (tf : Transform) (data : PushData) :
    ∀ (pairs : List (ConnInfo × String)) (todo : Nat),
      (pairs.filter (fun p => (tf p.1.ctx data.activities p.2).isSome)).length < todo →
      countCallback (deliverLoop tf data pairs todo) = 0 := by
  intro pairs
  induction pairs with
  | nil => intro todo _; simp [deliverLoop, countCallback]
  | cons p rest ih =>
    intro todo hlt
    obtain ⟨c, tt⟩ := p
    rcases htf : tf c.ctx data.activities tt with _ | acts
    · rw [List.filter_cons] at hlt
      simp only [htf] at hlt
      simp only [deliverLoop, htf]
      exact ih todo (by simpa using hlt)
    · rw [List.filter_cons] at hlt
      simp only [htf, Option.isSome_some] at hlt
      simp at hlt
      have h1 : (rest.filter (fun p => (tf p.1.ctx data.activities p.2).isSome)).length
          < todo - 1 := by omega
      have h2 : todo - 1 ≠ 0 := by omega
      simp only [deliverLoop, htf]
      rw [if_neg h2]
      simp only [countCallback, List.filter_cons]
      simpa [countCallback] using ih (todo - 1) h1

/-- The delivery loop on an empty pair list does nothing: in particular the
completion callback is not invoked. -/
theorem deliverLoop_nil (tf : Transform) (data : PushData) (todo : Nat) :
    deliverLoop tf data [] todo = [] := rfl

/-- Full branch characterization of `_authenticate`: either the connection
store is left untouched (early validation or principal-fetch failure), or
the principal fetch succeeded and the context is attached — with the
timeout cleared and an acknowledgment exactly when the signature also
verifies, and a 401 plus close (context nevertheless attached) when it does
not. -/
theorem authenticate_cases (env : Env) (s : PushState) (sid : Nat) (m : AuthMsg)
    (fetch : FetchRes) (verify : Bool) :
    (authenticate env s sid m fetch verify).1 = s ∨
    (∃ c d user, s.conns sid = some c ∧ m.payload = some d ∧
      fetch = FetchRes.ok user ∧ authValidationsPass env m = true ∧
      ((verify = true ∧ authenticate env s sid m fetch verify =
         (updateConn s sid
            { c with ctx := some ⟨d.tenantAlias, user⟩, timerCancelled := true },
          [Action.clearAuthTimeout sid, Action.writeResponse sid m.id none])) ∨
       (verify = false ∧ authenticate env s sid m fetch verify =
         (updateConn s sid { c with ctx := some ⟨d.tenantAlias, user⟩ },
          [Action.writeResponse sid m.id (some ⟨401, "Invalid signature"⟩),
           Action.closeSocket sid])))) := by
  rcases hc : s.conns sid with _ | c
  · left
    simp [authenticate, hc]
  rcases hpay : m.payload with _ | d
  · left
    simp [authenticate, hc, hpay]
  rcases hp1 : authPass1Errors env d with _ | ⟨e1, r1⟩
  swap
  · left
    simp [authenticate, hc, hpay, hp1]
  rcases hsig : d.signature with _ | sig
  · left
    simp [authenticate, hc, hpay, hp1, hsig]
  rcases hp2 : authPass2Errors sig with _ | ⟨e2, r2⟩
  swap
  · left
    simp [authenticate, hc, hpay, hp1, hsig, hp2]
  rcases hf : fetch with user | e
  swap
  · left
    simp [authenticate, hc, hpay, hp1, hsig, hp2]
  · right
    refine ⟨c, d, user, rfl, rfl, rfl, ?_, ?_⟩
    · simp [authValidationsPass, hpay, hp1, hsig, hp2]
    · rcases verify with _ | _
      · right
        refine ⟨rfl, ?_⟩
        simp [authenticate, hc, hpay, hp1, hsig, hp2]
      · left
        refine ⟨rfl, ?_⟩
        simp [authenticate, hc, hpay, hp1, hsig, hp2]

/-- On a failed principal fetch the error is relayed and the socket closed,
with the connection store untouched. -/
theorem authenticate_fetcherr (env : Env) (s : PushState) (sid : Nat) (m : AuthMsg)
    (c : ConnInfo) (d : AuthPayload) (sig : SigPayload) (e : ErrObj) (verify : Bool)
    (hc : s.conns sid = some c) (hpay : m.payload = some d)
    (hp1 : authPass1Errors env d = []) (hsig : d.signature = some sig)
    (hp2 : authPass2Errors sig = []) :
    authenticate env s sid m (FetchRes.err e) verify =
      (s, [Action.writeResponse sid m.id (some e), Action.closeSocket sid]) := by
  simp [authenticate, hc, hpay, hp1, hsig, hp2]

/-- Cancellation of the authentication timer is never undone by the
authentication handler, for any connection on the node. -/
theorem authenticate_cancel_mono (env : Env) (s : PushState) (sid : Nat) (m : AuthMsg)
    (fetch : FetchRes) (verify : Bool) (k : Nat) (c : ConnInfo)
    (hk : s.conns k = some c) (hcan : c.timerCancelled = true) :
    ∃ c', (authenticate env s sid m fetch verify).1.conns k = some c' ∧
      c'.timerCancelled = true := by
  rcases authenticate_cases env s sid m fetch verify with heq | ⟨c0, d, user, hc0, _, _, _, hbr⟩
  · exact ⟨c, by rw [heq, hk], hcan⟩
  · by_cases hks : k = sid
    · subst hks
      have hcc : c0 = c := by
        rw [hk] at hc0
        exact (Option.some_injective _ hc0).symm
      subst hcc
      rcases hbr with ⟨_, heq⟩ | ⟨_, heq⟩
      · refine ⟨{ c0 with ctx := some ⟨d.tenantAlias, user⟩, timerCancelled := true },
          ?_, rfl⟩
        rw [congrArg Prod.fst heq]
        simp
      · refine ⟨{ c0 with ctx := some ⟨d.tenantAlias, user⟩ }, ?_, hcan⟩
        rw [congrArg Prod.fst heq]
        simp
    · refine ⟨c, ?_, hcan⟩
      rcases hbr with ⟨_, heq⟩ | ⟨_, heq⟩ <;>
        rw [congrArg Prod.fst heq, updateConn_conns_ne _ _ _ _ hks] <;> exact hk

/-- The subscribe handler never touches any other socket's connection
object. -/
theorem subscribeStep_conns_other (env : Env) (s : PushState) (sid : Nat)
    (m : SubMsg) (authzRes bindRes : Option ErrObj) (k : Nat) (hks : k ≠ sid) :
    (subscribeStep env s sid m authzRes bindRes).1.conns k = s.conns k := by
  rcases hc : s.conns sid with _ | c0
  · simp [subscribeStep, hc]
  rcases hdata : m.payload with _ | data
  · simp [subscribeStep, hc, hdata]
  rcases hstream : data.stream with _ | stream
  · simp [subscribeStep, hc, hdata, hstream]
  by_cases h1 : stream.resourceId = "" ∨ stream.streamType = ""
  · simp [subscribeStep, hc, hdata, hstream, h1]
  by_cases h2 : badFormat env data.format
  · simp [subscribeStep, hc, hdata, hstream, h1, h2]
  by_cases h3 : env.hasAuthz stream.streamType
  case neg => simp [subscribeStep, hc, hdata, hstream, h1, h2, h3]
  rcases authzRes with _ | ae
  swap
  · simp [subscribeStep, hc, hdata, hstream, h1, h2, h3]
  by_cases h4 : createActivityStreamId stream.resourceId stream.streamType ∈ c0.streams
  · simp [subscribeStep, hc, hdata, hstream, h1, h2, h3, h4, updateConn, hks]
  by_cases h5 : (alookup s.perStream
      (createActivityStreamId stream.resourceId stream.streamType)).isSome
  · simp [subscribeStep, hc, hdata, hstream, h1, h2, h3, h4, h5, updateConn, hks]
  rcases bindRes with _ | be <;>
    simp [subscribeStep, hc, hdata, hstream, h1, h2, h3, h4, h5, updateConn, hks]

/-- The subscribe handler preserves the timer-cancellation flag of the
handling socket's connection object. -/
theorem subscribeStep_cancel_self (env : Env) (s : PushState) (sid : Nat)
    (m : SubMsg) (authzRes bindRes : Option ErrObj) (c0 : ConnInfo)
    (hc : s.conns sid = some c0) :
    ∃ c', (subscribeStep env s sid m authzRes bindRes).1.conns sid = some c' ∧
      c'.timerCancelled = c0.timerCancelled := by
  rcases hdata : m.payload with _ | data
  · exact ⟨c0, by simp [subscribeStep, hc, hdata], rfl⟩
  rcases hstream : data.stream with _ | stream
  · exact ⟨c0, by simp [subscribeStep, hc, hdata, hstream], rfl⟩
  by_cases h1 : stream.resourceId = "" ∨ stream.streamType = ""
  · exact ⟨c0, by simp [subscribeStep, hc, hdata, hstream, h1], rfl⟩
  by_cases h2 : badFormat env data.format
  · exact ⟨c0, by simp [subscribeStep, hc, hdata, hstream, h1, h2], rfl⟩
  by_cases h3 : env.hasAuthz stream.streamType
  case neg =>
    exact ⟨c0, by simp [subscribeStep, hc, hdata, hstream, h1, h2, h3], rfl⟩
  rcases authzRes with _ | ae
  swap
  · exact ⟨c0, by simp [subscribeStep, hc, hdata, hstream, h1, h2, h3], rfl⟩
  by_cases h4 : createActivityStreamId stream.resourceId stream.streamType ∈ c0.streams
  · refine ⟨pushTransformer c0
      (createActivityStreamId stream.resourceId stream.streamType)
      ((fmtOf data.format).getD internalTransformerType), ?_, rfl⟩
    simp [subscribeStep, hc, hdata, hstream, h1, h2, h3, h4, updateConn]
  by_cases h5 : (alookup s.perStream
      (createActivityStreamId stream.resourceId stream.streamType)).isSome
  · refine ⟨pushTransformer
      { c0 with streams := c0.streams ++
          [createActivityStreamId stream.resourceId stream.streamType] }
      (createActivityStreamId stream.resourceId stream.streamType)
      ((fmtOf data.format).getD internalTransformerType), ?_, rfl⟩
    simp [subscribeStep, hc, hdata, hstream, h1, h2, h3, h4, h5, updateConn]
  rcases bindRes with _ | be
  · refine ⟨pushTransformer
      { c0 with streams := c0.streams ++
          [createActivityStreamId stream.resourceId stream.streamType] }
      (createActivityStreamId stream.resourceId stream.streamType)
      ((fmtOf data.format).getD internalTransformerType), ?_, rfl⟩
    simp [subscribeStep, hc, hdata, hstream, h1, h2, h3, h4, h5, updateConn]
  · refine ⟨{ c0 with streams := c0.streams ++
        [createActivityStreamId stream.resourceId stream.streamType] }, ?_, rfl⟩
    simp [subscribeStep, hc, hdata, hstream, h1, h2, h3, h4, h5, updateConn]

/-- The timer-cancellation flag, once set, survives the subscribe handler,
for any connection on the node. -/
theorem subscribeStep_cancel_mono (env : Env) (s : PushState) (sid : Nat)
    (m : SubMsg) (authzRes bindRes : Option ErrObj) (k : Nat) (c : ConnInfo)
    (hk : s.conns k = some c) (hcan : c.timerCancelled = true) :
    ∃ c', (subscribeStep env s sid m authzRes bindRes).1.conns k = some c' ∧
      c'.timerCancelled = true := by
  by_cases hks : k = sid
  · subst hks
    rcases subscribeStep_cancel_self env s k m authzRes bindRes c hk with ⟨c', hc', hcc⟩
    exact ⟨c', hc', hcc.trans hcan⟩
  · exact ⟨c, (subscribeStep_conns_other env s sid m authzRes bindRes k hks).trans hk,
      hcan⟩

/-- The timer-cancellation flag survives a timer-fire event, for any
connection on the node. -/
theorem fireTimer_cancel_mono (s : PushState) (sid k : Nat) (c : ConnInfo)
    (hk : s.conns k = some c) (hcan : c.timerCancelled = true) :
    ∃ c', (fireTimer s sid).1.conns k = some c' ∧ c'.timerCancelled = true := by
  rcases hc : s.conns sid with _ | c0
  · exact ⟨c, by simp [fireTimer, hc]; exact hk, hcan⟩
  by_cases hflag : c0.timerCancelled ∨ c0.timerFired
  · exact ⟨c, by simp [fireTimer, hc, hflag]; exact hk, hcan⟩
  by_cases hks : k = sid
  · subst hks
    have hcc : c0 = c := by
      rw [hk] at hc
      exact (Option.some_injective _ hc).symm
    subst hcc
    refine ⟨{ c0 with timerFired := true }, ?_, hcan⟩
    rcases hctx : c0.ctx with _ | cx <;>
      simp [fireTimer, hc, hflag, hctx, updateConn]
  · refine ⟨c, ?_, hcan⟩
    rcases hctx : c0.ctx with _ | cx <;>
      simp [fireTimer, hc, hflag, hctx, updateConn, hks] <;> exact hk

/-- A fired-or-cancelled timer is a no-op when it is scheduled again. -/
theorem fireTimer_cancelled_noop (s : PushState) (sid : Nat) (c : ConnInfo)
    (hc : s.conns sid = some c) (hcan : c.timerCancelled = true) :
    fireTimer s sid = (s, []) := by
  simp [fireTimer, hc, hcan]

/-- The timer-cancellation flag survives the full frame handler. -/
theorem dataStep_cancel_mono (env : Env) (s : PushState) (sid : Nat) (f : Frame)
    (fetchRes : FetchRes) (verifySig : Bool) (authzRes bindRes : Option ErrObj)
    (k : Nat) (c : ConnInfo) (hk : s.conns k = some c)
    (hcan : c.timerCancelled = true) :
    ∃ c', (dataStep env s sid f fetchRes verifySig authzRes bindRes).1.conns k =
      some c' ∧ c'.timerCancelled = true := by
  rcases f with _ | ⟨id, name, payload⟩
  · exact ⟨c, by simp [dataStep]; exact hk, hcan⟩
  by_cases hid : id = 0
  · exact ⟨c, by simp [dataStep, hid]; exact hk, hcan⟩
  by_cases hguard : ¬ ctxIsSet s sid ∧ name ≠ "authentication"
  · exact ⟨c, by simp only [dataStep, if_neg hid, if_pos hguard]; exact hk, hcan⟩
  by_cases hname : name = "authentication"
  · have : (dataStep env s sid (Frame.parsed id name payload)
        fetchRes verifySig authzRes bindRes) =
        authenticate env s sid
          ⟨id, match payload with | FramePayload.auth p => some p | _ => none⟩
          fetchRes verifySig := by
      simp only [dataStep, if_neg hid, if_neg hguard, if_pos hname]
    rw [this]
    exact authenticate_cancel_mono env s sid _ fetchRes verifySig k c hk hcan
  by_cases hsub : name = "subscribe"
  · have : (dataStep env s sid (Frame.parsed id name payload)
        fetchRes verifySig authzRes bindRes) =
        subscribeStep env s sid
          ⟨id, match payload with | FramePayload.sub p => some p | _ => none⟩
          authzRes bindRes := by
      simp only [dataStep, if_neg hid, if_neg hguard, if_neg hname, if_pos hsub]
    rw [this]
    exact subscribeStep_cancel_mono env s sid _ authzRes bindRes k c hk hcan
  · exact ⟨c, by simp only [dataStep, if_neg hid, if_neg hguard, if_neg hname,
      if_neg hsub]; exact hk, hcan⟩

/-- The timer-cancellation flag survives any scheduler event. -/
theorem stepEv_cancel_mono (env : Env) (s : PushState) (e : PushEv) (k : Nat)
    (c : ConnInfo) (hk : s.conns k = some c) (hcan : c.timerCancelled = true) :
    ∃ c', (stepEv env s e).1.conns k = some c' ∧ c'.timerCancelled = true := by
  rcases e with sid | ⟨sid, f, fr, v, ar, br⟩
  · exact fireTimer_cancel_mono s sid k c hk hcan
  · exact dataStep_cancel_mono env s sid f fr v ar br k c hk hcan

/-- The timer-cancellation flag survives any sequence of scheduler events:
a cancelled authentication timer stays cancelled forever. -/
theorem runState_cancel_mono (env : Env) (k : Nat) :
    ∀ (evs : List PushEv) (s : PushState) (c : ConnInfo),
      s.conns k = some c → c.timerCancelled = true →
      ∃ c', (runState env s evs).conns k = some c' ∧ c'.timerCancelled = true := by
  intro evs
  induction evs with
  | nil => intro s c hk hcan; exact ⟨c, hk, hcan⟩
  | cons e rest ih =>
    intro s c hk hcan
    rcases stepEv_cancel_mono env s e k c hk hcan with ⟨c', hk', hcan'⟩
    exact ih (stepEv env s e).1 c' hk' hcan'

/-- Decomposition of a passing validation run. -/
theorem authValidationsPass_elim (env : Env) (m : AuthMsg)
    (h : authValidationsPass env m = true) :
    ∃ d sig, m.payload = some d ∧ authPass1Errors env d = [] ∧
      d.signature = some sig ∧ authPass2Errors sig = [] := by
  rcases m with ⟨mid, mpay⟩
  rcases mpay with _ | d
  · simp [authValidationsPass] at h
  rcases hsig : d.signature with _ | sig
  · simp [authValidationsPass, hsig] at h
  simp only [authValidationsPass, hsig, Bool.and_eq_true, List.isEmpty_iff] at h
  exact ⟨d, sig, rfl, h.1, hsig, h.2⟩

/-- A failed principal fetch never changes the connection store, on any
validation path. -/
theorem authenticate_err_state (env : Env) (s : PushState) (sid : Nat) (m : AuthMsg)
    (e : ErrObj) (verify : Bool) :
    (authenticate env s sid m (FetchRes.err e) verify).1 = s := by
  rcases hc : s.conns sid with _ | c
  · simp [authenticate, hc]
  rcases hpay : m.payload with _ | d
  · simp [authenticate, hc, hpay]
  rcases hp1 : authPass1Errors env d with _ | ⟨e1, r1⟩
  swap
  · simp [authenticate, hc, hpay, hp1]
  rcases hsig : d.signature with _ | sig
  · simp [authenticate, hc, hpay, hp1, hsig]
  rcases hp2 : authPass2Errors sig with _ | ⟨e2, r2⟩ <;>
    simp [authenticate, hc, hpay, hp1, hsig, hp2]

/-- A specified non-empty format is kept as the transformer type. -/
theorem fmtOf_some (f : String) (hne : f ≠ "") : fmtOf (some f) = some f := by
  simp [fmtOf, hne]

/-- A list with a failing element filters to a strictly shorter list. -/
theorem filter_length_lt_of_exists_not {α : Type} (p : α → Bool) :
    ∀ l : List α, (∃ x ∈ l, p x = false) → (l.filter p).length < l.length := by
  intro l
  induction l with
  | nil => rintro ⟨x, hx, _⟩; exact absurd hx (List.not_mem_nil x)
  | cons a rest ih =>
    rintro ⟨x, hx, hpx⟩
    rw [List.filter_cons]
    rcases List.mem_cons.mp hx with hxa | hxr
    · subst hxa
      rw [if_neg (by simp [hpx])]
      have := List.length_filter_le p rest
      simp only [List.length_cons]
      omega
    · by_cases hpa : p a
      · rw [if_pos (by simp [hpa])]
        have := ih ⟨x, hxr, hpx⟩
        simp only [List.length_cons]
        omega
      · rw [if_neg (by simp [hpa])]
        have := List.length_filter_le p rest
        simp only [List.length_cons]
        omega

/-- Characterization of the routed-activities hook output: it publishes for
a (resource, stream type) pair exactly when the pair occurs in the emitted
batch and the stream type's registered delivery phase is not
`aggregation`. -/
theorem publishesFor_routed (phaseOf : String → Option String)
    (ev : List (String × List (String × Activity))) (r st : String) :
    publishesFor (routedActivitiesOn phaseOf ev) r st ↔
      pairOccurs ev r st ∧ phaseOf st ≠ some "aggregation" := by
  constructor
  · rintro ⟨p, hp, hr, hst⟩
    rcases List.mem_flatMap.mp hp with ⟨pr, hpr, hpin⟩
    rcases List.mem_filterMap.mp hpin with ⟨q, hq, hqe⟩
    rw [Option.ite_none_right_eq_some] at hqe
    obtain ⟨hphase, hqe⟩ := hqe
    have hpe := (Option.some.injEq _ _).mp hqe
    have hres : pr.1 = r := by rw [← hr, ← hpe]
    have hsty : q.1 = st := by rw [← hst, ← hpe]
    refine ⟨⟨pr, hpr, hres, q, hq, hsty⟩, ?_⟩
    rw [← hsty]
    exact hphase
  · rintro ⟨⟨sa, hsa, hr, x, hx, hst⟩, hphase⟩
    refine ⟨(createActivityStreamId sa.1 x.1,
      { resourceId := sa.1, streamType := x.1,
        activities := [x.2], numNewActivities := none }), ?_, hr, hst⟩
    refine List.mem_flatMap.mpr ⟨sa, hsa, ?_⟩
    refine List.mem_filterMap.mpr ⟨x, hx, ?_⟩
    rw [Option.ite_none_right_eq_some]
    rw [hst]
    exact ⟨hphase, rfl⟩

/-- Characterization of the delivered-activities hook output: it publishes
for a (resource, stream type) pair exactly when the pair occurs in the
aggregated batch and the stream type's registered delivery phase is
`aggregation`. -/
theorem publishesFor_delivered (phaseOf : String → Option String)
    (dev : List (String × List (String × ActivityInfo))) (r st : String) :
    publishesFor (deliveredActivitiesOn phaseOf dev) r st ↔
      pairOccurs dev r st ∧ phaseOf st = some "aggregation" := by
  constructor
  · rintro ⟨p, hp, hr, hst⟩
    rcases List.mem_flatMap.mp hp with ⟨pr, hpr, hpin⟩
    rcases List.mem_filterMap.mp hpin with ⟨q, hq, hqe⟩
    rw [Option.ite_none_right_eq_some] at hqe
    obtain ⟨hphase, hqe⟩ := hqe
    have hpe := (Option.some.injEq _ _).mp hqe
    have hres : pr.1 = r := by rw [← hr, ← hpe]
    have hsty : q.1 = st := by rw [← hst, ← hpe]
    refine ⟨⟨pr, hpr, hres, q, hq, hsty⟩, ?_⟩
    rw [← hsty]
    exact hphase
  · rintro ⟨⟨sa, hsa, hr, x, hx, hst⟩, hphase⟩
    refine ⟨(createActivityStreamId sa.1 x.1,
      { resourceId := sa.1, streamType := x.1,
        activities := x.2.activities, numNewActivities := x.2.numNewActivities }),
      ?_, hr, hst⟩
    refine List.mem_flatMap.mpr ⟨sa, hsa, ?_⟩
    refine List.mem_filterMap.mpr ⟨x, hx, ?_⟩
    rw [Option.ite_none_right_eq_some]
    rw [hst]
    exact ⟨hphase, rfl⟩

/-- C1 (amended): for every connection and every parsed inbound frame that
carries a truthy client id, if the connection has not completed
authentication and the frame's name is not `authentication`, the frame is
not dispatched to any handler; a 401 error response keyed to the frame's id
is written, the socket is closed, and the node state — in particular all
subscription state — is unchanged.  (Frames without a truthy id are instead
rejected with a 400 keyed to 0; see the counterexample.) -/
theorem C1_unauth_frame_guard (env : Env) (s : PushState) (sid id : Nat)
    (name : String) (payload : FramePayload) (fetchRes : FetchRes)
    (verifySig : Bool) (authzRes bindRes : Option ErrObj)
    (hid : id ≠ 0) (hname : name ≠ "authentication")
    (hctx : ctxIsSet s sid = false) :
    handleData sid false (Frame.parsed id name payload) =
      [Action.writeResponse sid id
        (some ⟨401, "The first frame should be an authentication frame"⟩),
       Action.closeSocket sid] ∧
    Action.dispatchAuthenticate sid ∉
      handleData sid false (Frame.parsed id name payload) ∧
    Action.dispatchSubscribe sid ∉
      handleData sid false (Frame.parsed id name payload) ∧
    dataStep env s sid (Frame.parsed id name payload) fetchRes verifySig
        authzRes bindRes =
      (s, [Action.writeResponse sid id
            (some ⟨401, "The first frame should be an authentication frame"⟩),
          Action.closeSocket sid]) := by
  have hguard : ¬ ctxIsSet s sid ∧ name ≠ "authentication" := by
    simp [hctx, hname]
  refine ⟨?_, ?_, ?_, ?_⟩
  · simp [handleData, hid, hname]
  · simp [handleData, hid, hname]
  · simp [handleData, hid, hname]
  · simp only [dataStep, if_neg hid, if_pos hguard]

/-- C1 counterexample: a subscribe frame with a missing (falsy) id on an
unauthenticated connection is rejected with a 400 keyed to 0 — not the 401
keyed to the frame's id that the claim states for every inbound
non-authentication frame. -/
theorem C1_counterexample :
    handleData 1 false (Frame.parsed 0 "subscribe" FramePayload.missing) =
      [Action.writeResponse 1 0 (some ⟨400, "Missing id on the message"⟩),
       Action.closeSocket 1] ∧
    (400 : Nat) ≠ 401 := by
  exact ⟨by decide, by decide⟩

/-- C1 witness: the guard applied to a fresh unauthenticated connection and
a subscribe frame with id 7. -/
theorem C1_witness :
    handleData 1 false (Frame.parsed 7 "subscribe" FramePayload.missing) =
      [Action.writeResponse 1 7
        (some ⟨401, "The first frame should be an authentication frame"⟩),
       Action.closeSocket 1] ∧
    Action.dispatchAuthenticate 1 ∉
      handleData 1 false (Frame.parsed 7 "subscribe" FramePayload.missing) ∧
    Action.dispatchSubscribe 1 ∉
      handleData 1 false (Frame.parsed 7 "subscribe" FramePayload.missing) ∧
    dataStep env0 s0 1 (Frame.parsed 7 "subscribe" FramePayload.missing)
        (FetchRes.err ⟨500, "unused"⟩) false none none =
      (s0, [Action.writeResponse 1 7
             (some ⟨401, "The first frame should be an authentication frame"⟩),
           Action.closeSocket 1]) :=
  C1_unauth_frame_guard env0 s0 1 7 "subscribe" FramePayload.missing
    (FetchRes.err ⟨500, "unused"⟩) false none none
    (by decide) (by decide) (by decide)

/-- C6 (amended): for a broker message, the dispatch pipeline invokes its
completion callback exactly once, after a write per (connection, transform)
pair, when at least one pair exists and every transform succeeds; with zero
pairs it produces no actions at all, and a single transform failure skips
that pair's decrement so the callback is never invoked for that message. -/
theorem C6_completion_callback (s : PushState) (data : PushData) (tf : Transform) :
    (gatherPairs s (createActivityStreamId data.resourceId data.streamType) = [] →
      handlePushActivity s data tf = []) ∧
    (gatherPairs s (createActivityStreamId data.resourceId data.streamType) ≠ [] →
      (∀ p ∈ gatherPairs s (createActivityStreamId data.resourceId data.streamType),
        (tf p.1.ctx data.activities p.2).isSome) →
      handlePushActivity s data tf =
        (gatherPairs s (createActivityStreamId data.resourceId data.streamType)).map
          (fun p => Action.writeFrame p.1.sockId
            (mkPushFrame data ((tf p.1.ctx data.activities p.2).getD []) p.2)) ++
          [Action.invokeCallback]) ∧
    ((∃ p ∈ gatherPairs s (createActivityStreamId data.resourceId data.streamType),
        tf p.1.ctx data.activities p.2 = none) →
      countCallback (handlePushActivity s data tf) = 0) := by
  refine ⟨?_, ?_, ?_⟩
  · intro hnil
    simp only [handlePushActivity]
    rw [hnil]
    rfl
  · intro hne hall
    simp only [handlePushActivity]
    exact deliverLoop_all_success tf data _ hne hall
  · rintro ⟨p, hp, hfail⟩
    simp only [handlePushActivity]
    apply deliverLoop_undershoot
    apply filter_length_lt_of_exists_not
    exact ⟨p, hp, by simp [hfail]⟩

/-- C6 counterexample: a broker message for a stream with no subscribed
(connection, transform) pair never invokes the completion callback — the
dispatch handler produces no actions, refuting the claim that the callback
is invoked for any number of pairs including zero. -/
theorem C6_counterexample :
    gatherPairs initState
      (createActivityStreamId data0.resourceId data0.streamType) = [] ∧
    countCallback (handlePushActivity initState data0 tf0) = 0 := by
  exact ⟨rfl, rfl⟩

/-- C6 witness: the zero-pair conjunct applied at the empty node state. -/
theorem C6_witness : handlePushActivity initState data0 tf0 = [] :=
  (C6_completion_callback initState data0 tf0).1 rfl

/-- C8 (confirmed): for any registered delivery phases and any emitted
batches, the routed hook publishes for a stream type exactly when the pair
occurs and the phase is not `aggregation`, the delivered hook exactly when
the pair occurs and the phase is `aggregation`; the two hooks never both
publish for the same (resource, stream type), and for a pair present in
both batches exactly one hook publishes, determined solely by the
registered phase. -/
theorem C8_delivery_phase (phaseOf : String → Option String) (r st : String)
    (ev : List (String × List (String × Activity)))
    (dev : List (String × List (String × ActivityInfo))) :
    (publishesFor (routedActivitiesOn phaseOf ev) r st ↔
      pairOccurs ev r st ∧ phaseOf st ≠ some "aggregation") ∧
    (publishesFor (deliveredActivitiesOn phaseOf dev) r st ↔
      pairOccurs dev r st ∧ phaseOf st = some "aggregation") ∧
    ¬(publishesFor (routedActivitiesOn phaseOf ev) r st ∧
      publishesFor (deliveredActivitiesOn phaseOf dev) r st) ∧
    (pairOccurs ev r st → pairOccurs dev r st →
      ((publishesFor (routedActivitiesOn phaseOf ev) r st ↔
          phaseOf st ≠ some "aggregation") ∧
       (publishesFor (deliveredActivitiesOn phaseOf dev) r st ↔
          phaseOf st = some "aggregation") ∧
       (publishesFor (routedActivitiesOn phaseOf ev) r st ↔
          ¬ publishesFor (deliveredActivitiesOn phaseOf dev) r st))) := by
  have hro := publishesFor_routed phaseOf ev r st
  have hde := publishesFor_delivered phaseOf dev r st
  refine ⟨hro, hde, ?_, ?_⟩
  · rintro ⟨h1, h2⟩
    exact (hro.mp h1).2 (hde.mp h2).2
  · intro ho hd2
    refine ⟨⟨fun h1 => (hro.mp h1).2, fun hp => hro.mpr ⟨ho, hp⟩⟩,
      ⟨fun h1 => (hde.mp h1).2, fun hp => hde.mpr ⟨hd2, hp⟩⟩, ?_, ?_⟩
    · intro h1 h2
      exact (hro.mp h1).2 (hde.mp h2).2
    · intro hnp
      refine hro.mpr ⟨ho, fun hagg => hnp (hde.mpr ⟨hd2, hagg⟩)⟩

/-- C8 witness: mutual exclusion of the two hooks at a concrete registry
and a concrete emitted event. -/
theorem C8_witness :
    ¬(publishesFor (routedActivitiesOn
        (fun sty => if sty = "notification" then some "aggregation" else none)
        [("c:cam:doc", [("activity", "a1")])]) "c:cam:doc" "activity" ∧
      publishesFor (deliveredActivitiesOn
        (fun sty => if sty = "notification" then some "aggregation" else none)
        [("c:cam:doc", [("activity", ⟨["a1"], some 1⟩)])]) "c:cam:doc" "activity") :=
  (C8_delivery_phase
    (fun sty => if sty = "notification" then some "aggregation" else none)
    "c:cam:doc" "activity" [("c:cam:doc", [("activity", "a1")])]
    [("c:cam:doc", [("activity", ⟨["a1"], some 1⟩)])]).2.2.1

/-- C9 (amended): a subscribe for a stream the connection already holds,
with a (different) registered format, is accepted: the new format is
recorded and a success response sent without touching the broker — but the
stream type's authorization handler is invoked again for the repeat
request (the handler never receives the format). -/
theorem C9_reauthorization (env : Env) (s : PushState) (sid : Nat) (m : SubMsg)
    (c : ConnInfo) (data : SubData) (stream : StreamRef) (bindRes : Option ErrObj)
    (hc : s.conns sid = some c) (hdata : m.payload = some data)
    (hstream : data.stream = some stream)
    (h1 : ¬(stream.resourceId = "" ∨ stream.streamType = ""))
    (h2 : ¬ badFormat env data.format)
    (h3 : env.hasAuthz stream.streamType)
    (h4 : createActivityStreamId stream.resourceId stream.streamType ∈ c.streams) :
    Action.callAuthz stream.streamType stream.resourceId ∈
      (subscribeStep env s sid m none bindRes).2 ∧
    (subscribeStep env s sid m none bindRes).2 =
      [Action.callAuthz stream.streamType stream.resourceId,
       Action.writeResponse sid m.id none] ∧
    (subscribeStep env s sid m none bindRes).1.conns sid =
      some (pushTransformer c
        (createActivityStreamId stream.resourceId stream.streamType)
        ((fmtOf data.format).getD internalTransformerType)) ∧
    touchesBroker (subscribeStep env s sid m none bindRes).2 = false ∧
    (subscribeStep env s sid m none bindRes).1.perStream = s.perStream ∧
    (subscribeStep env s sid m none bindRes).1.bindings = s.bindings := by
  have h := subscribe_dup env s sid m c data stream bindRes hc hdata hstream h1 h2 h3 h4
  refine ⟨?_, h.1, h.2.1, ?_, h.2.2.2.1, h.2.2.2.2⟩
  · rw [h.1]
    exact List.mem_cons_self _ _
  · rw [h.1]
    rfl

/-- C9 counterexample: subscribing the same stream a second time under the
other format re-invokes the authorization handler — the marker for the
handler call is present in the second request's trace, refuting the claim
that the handler is not re-run. -/
theorem C9_counterexample :
    (subscribeStep env0
      (subscribeStep env0 s0 1
        (msgSub 1 "c:cam:doc" "activity" (some "activitystreams")) none none).1
      1 (msgSub 2 "c:cam:doc" "activity" (some internalTransformerType))
      none none).2 =
      [Action.callAuthz "activity" "c:cam:doc", Action.writeResponse 1 2 none] ∧
    Action.callAuthz "activity" "c:cam:doc" ∈
      (subscribeStep env0
        (subscribeStep env0 s0 1
          (msgSub 1 "c:cam:doc" "activity" (some "activitystreams")) none none).1
        1 (msgSub 2 "c:cam:doc" "activity" (some internalTransformerType))
        none none).2 := by
  exact ⟨by decide, by decide⟩

/-- C9 witness: the repeat-subscribe theorem applied at a concrete state
already holding the stream. -/
theorem C9_witness :
    Action.callAuthz "a" "r" ∈
      (subscribeStep env0 sW 1 (msgSub 3 "r" "a" (some "activitystreams"))
        none none).2 :=
  (C9_reauthorization env0 sW 1 (msgSub 3 "r" "a" (some "activitystreams"))
    _ _ _ none rfl rfl rfl (by decide) (by decide) (by decide) (by decide)).1

/-- C2 (amended): the authenticated context is attached to the connection
exactly when the principal fetch succeeds — even if the subsequent
signature verification fails, in which case a 401 is sent and the socket
closed with the context nevertheless attached; on any failure before the
fetch completes the connection store is unchanged; and the authentication
state never regresses from authenticated to unauthenticated. -/
theorem C2_ctx_attach (env : Env) (s : PushState) (sid : Nat) (m : AuthMsg)
    (fetch : FetchRes) (verify : Bool) (c : ConnInfo)
    (hc : s.conns sid = some c) :
    (authValidationsPass env m = false →
      (authenticate env s sid m fetch verify).1 = s) ∧
    (∀ e, (authenticate env s sid m (FetchRes.err e) verify).1 = s) ∧
    (∀ d user, m.payload = some d → authValidationsPass env m = true →
      authenticate env s sid m (FetchRes.ok user) true =
        (updateConn s sid
          { c with ctx := some ⟨d.tenantAlias, user⟩, timerCancelled := true },
         [Action.clearAuthTimeout sid, Action.writeResponse sid m.id none])) ∧
    (∀ d user, m.payload = some d → authValidationsPass env m = true →
      authenticate env s sid m (FetchRes.ok user) false =
        (updateConn s sid { c with ctx := some ⟨d.tenantAlias, user⟩ },
         [Action.writeResponse sid m.id (some ⟨401, "Invalid signature"⟩),
          Action.closeSocket sid])) ∧
    (c.ctx.isSome → ∃ c',
      (authenticate env s sid m fetch verify).1.conns sid = some c' ∧
        c'.ctx.isSome) := by
  refine ⟨?_, ?_, ?_, ?_, ?_⟩
  · intro hv
    rcases authenticate_cases env s sid m fetch verify with heq | ⟨c0, d, user, _, _, _, hvp, _⟩
    · exact heq
    · rw [hvp] at hv
      cases hv
  · intro e
    exact authenticate_err_state env s sid m e verify
  · intro d user hpay hv
    rcases authValidationsPass_elim env m hv with ⟨d', sig, hpay', hp1, hsig, hp2⟩
    have hdd : d' = d := by
      rw [hpay] at hpay'
      exact (Option.some_injective _ hpay').symm
    subst hdd
    simp [authenticate, hc, hpay, hp1, hsig, hp2]
  · intro d user hpay hv
    rcases authValidationsPass_elim env m hv with ⟨d', sig, hpay', hp1, hsig, hp2⟩
    have hdd : d' = d := by
      rw [hpay] at hpay'
      exact (Option.some_injective _ hpay').symm
    subst hdd
    simp [authenticate, hc, hpay, hp1, hsig, hp2]
  · intro hctx
    rcases authenticate_cases env s sid m fetch verify with heq | ⟨c0, d, user, hc0, _, _, _, hbr⟩
    · exact ⟨c, by rw [heq]; exact hc, hctx⟩
    · have hcc : c0 = c := by
        rw [hc] at hc0
        exact (Option.some_injective _ hc0).symm
      subst hcc
      rcases hbr with ⟨_, heq⟩ | ⟨_, heq⟩
      · refine ⟨{ c0 with ctx := some ⟨d.tenantAlias, user⟩, timerCancelled := true },
          ?_, rfl⟩
        rw [congrArg Prod.fst heq]
        simp
      · refine ⟨{ c0 with ctx := some ⟨d.tenantAlias, user⟩ }, ?_, rfl⟩
        rw [congrArg Prod.fst heq]
        simp

/-- C2 counterexample: with a structurally valid frame, a successful
principal fetch and a failing signature verification, the connection ends
with a context attached (and a 401 plus close on the wire) — refuting the
claim that the context is attached only when authentication succeeds and
that a failed authentication leaves the connection unauthenticated. -/
theorem C2_counterexample :
    ((authenticate env0 s0 1 msgAuth0 (FetchRes.ok ⟨"u:cam:alice"⟩) false).1.conns 1).bind
        ConnInfo.ctx ≠ none ∧
    (authenticate env0 s0 1 msgAuth0 (FetchRes.ok ⟨"u:cam:alice"⟩) false).2 =
      [Action.writeResponse 1 1 (some ⟨401, "Invalid signature"⟩),
       Action.closeSocket 1] := by
  exact ⟨by decide, by decide⟩

/-- C2 witness: the attach/acknowledge equations applied at a concrete
connection and frame. -/
theorem C2_witness :
    authenticate env0 s0 1 msgAuth0 (FetchRes.ok ⟨"u:cam:alice"⟩) true =
      (updateConn s0 1
        { conn0 with ctx := some ⟨"cam", ⟨"u:cam:alice"⟩⟩, timerCancelled := true },
       [Action.clearAuthTimeout 1, Action.writeResponse 1 1 none]) :=
  (C2_ctx_attach env0 s0 1 msgAuth0 (FetchRes.ok ⟨"u:cam:alice"⟩) true conn0
    (by decide)).2.2.1
    ⟨"cam", "u:cam:alice", some ⟨some 9999, some "sigval"⟩⟩
    ⟨"u:cam:alice"⟩ (by decide) (by decide)

/-- C3 (confirmed): a 5000 ms timer is armed on socket open; firing on a
still-unauthenticated connection writes a timeout error and closes the
socket; successful authentication clears the timer before the success
acknowledgment is sent; and once cleared the timer stays cleared through
any further scheduler events — a later fire is a strict no-op, so an
authenticated connection is never closed by the timer. -/
theorem C3_auth_timer (env : Env) (s : PushState) (sid : Nat) (evs : List PushEv)
    (c : ConnInfo) (hc : s.conns sid = some c) :
    (AUTHENTICATION_TIMEOUT = 5000 ∧
     (registerConnection sid).2 = AUTHENTICATION_TIMEOUT ∧
     (registerConnection sid).1.timerCancelled = false ∧
     (registerConnection sid).1.ctx = none) ∧
    (c.ctx = none → c.timerCancelled = false → c.timerFired = false →
      fireTimer s sid =
        (updateConn s sid { c with timerFired := true },
         [Action.writeResponse sid 0
           (some ⟨400,
             "Authentication should happen within 5 seconds after opening the socket"⟩),
          Action.closeSocket sid])) ∧
    (∀ m d user, m.payload = some d → authValidationsPass env m = true →
      authenticate env s sid m (FetchRes.ok user) true =
        (updateConn s sid
          { c with ctx := some ⟨d.tenantAlias, user⟩, timerCancelled := true },
         [Action.clearAuthTimeout sid, Action.writeResponse sid m.id none])) ∧
    (c.timerCancelled = true →
      ∃ c', (runState env s evs).conns sid = some c' ∧ c'.timerCancelled = true ∧
        fireTimer (runState env s evs) sid = (runState env s evs, [])) := by
  refine ⟨⟨rfl, rfl, rfl, rfl⟩, ?_, ?_, ?_⟩
  · intro hctx hcan hfir
    simp [fireTimer, hc, hcan, hfir, hctx]
  · intro m d user hpay hv
    rcases authValidationsPass_elim env m hv with ⟨d', sig, hpay', hp1, hsig, hp2⟩
    have hdd : d' = d := by
      rw [hpay] at hpay'
      exact (Option.some_injective _ hpay').symm
    subst hdd
    simp [authenticate, hc, hpay, hp1, hsig, hp2]
  · intro hcan
    rcases runState_cancel_mono env sid evs s c hc hcan with ⟨c', hk', hcan'⟩
    exact ⟨c', hk', hcan', fireTimer_cancelled_noop _ _ _ hk' hcan'⟩

/-- C3 witness: the timeout branch applied at a fresh unauthenticated
connection. -/
theorem C3_witness :
    fireTimer s0 1 =
      (updateConn s0 1 { conn0 with timerFired := true },
       [Action.writeResponse 1 0
         (some ⟨400,
           "Authentication should happen within 5 seconds after opening the socket"⟩),
        Action.closeSocket 1]) :=
  (C3_auth_timer env0 s0 1 [] conn0 (by decide)).2.1 (by decide) (by decide)
    (by decide)

/-- C7 (amended): for a subscribe on a not-yet-tracked stream, the
connection is added to the per-stream dispatch list and the success
response sent only in the bind-success continuation, with the bind call
preceding the acknowledgment; on bind failure the error is relayed and the
registry, bindings and transform records are untouched — but the stream id
remains recorded on the connection's `streams` list, so the connection
state is not exactly as if the subscribe had never happened. -/
theorem C7_bind_outcome (env : Env) (s : PushState) (sid : Nat) (m : SubMsg)
    (c : ConnInfo) (data : SubData) (stream : StreamRef) (e : ErrObj)
    (hc : s.conns sid = some c) (hdata : m.payload = some data)
    (hstream : data.stream = some stream)
    (h1 : ¬(stream.resourceId = "" ∨ stream.streamType = ""))
    (h2 : ¬ badFormat env data.format)
    (h3 : env.hasAuthz stream.streamType)
    (h4 : createActivityStreamId stream.resourceId stream.streamType ∉ c.streams)
    (h5 : alookup s.perStream
      (createActivityStreamId stream.resourceId stream.streamType) = none) :
    (subscribeStep env s sid m none (some e)).2 =
      [Action.callAuthz stream.streamType stream.resourceId,
       Action.bindQueue (createActivityStreamId stream.resourceId stream.streamType),
       Action.writeResponse sid m.id (some e)] ∧
    (subscribeStep env s sid m none (some e)).1.perStream = s.perStream ∧
    (subscribeStep env s sid m none (some e)).1.bindings = s.bindings ∧
    (subscribeStep env s sid m none (some e)).1.conns sid =
      some { c with streams := c.streams ++
        [createActivityStreamId stream.resourceId stream.streamType] } ∧
    (subscribeStep env s sid m none none).2 =
      [Action.callAuthz stream.streamType stream.resourceId,
       Action.bindQueue (createActivityStreamId stream.resourceId stream.streamType),
       Action.writeResponse sid m.id none] ∧
    alookup (subscribeStep env s sid m none none).1.perStream
      (createActivityStreamId stream.resourceId stream.streamType) = some [sid] := by
  have hfail := subscribe_fresh_fail env s sid m c data stream e hc hdata hstream
    h1 h2 h3 h4 h5
  have hok := subscribe_fresh_ok env s sid m c data stream hc hdata hstream
    h1 h2 h3 h4 h5
  exact ⟨hfail.1, hfail.2.2.2.1, hfail.2.2.2.2, hfail.2.1, hok.1, hok.2.2.2.1⟩

/-- C7 counterexample: after a concrete subscribe whose broker bind fails,
the error is relayed and the registry stays empty, yet the stream id was
pushed onto the connection's `streams` list — the subscription state is not
unchanged, refuting the claim's "as if the subscribe had never happened".  -/
theorem C7_counterexample :
    (subscribeStep env0 sAB 1 (msgSub 1 "c:cam:x" "activity" none) none
        (some ⟨500, "broker bind error"⟩)).2 =
      [Action.callAuthz "activity" "c:cam:x",
       Action.bindQueue "c:cam:x#activity",
       Action.writeResponse 1 1 (some ⟨500, "broker bind error"⟩)] ∧
    sAfterFail.perStream = [] ∧
    sAfterFail.bindings = [] ∧
    (sAfterFail.conns 1).map ConnInfo.streams = some ["c:cam:x#activity"] ∧
    conn0.streams = [] := by
  exact ⟨by decide, by decide, by decide, by decide, by decide⟩

/-- C7 witness: the bind-outcome theorem applied at a fresh connection and
stream. -/
theorem C7_witness :
    (subscribeStep env0 s0 1 (msgSub 4 "c:cam:doc" "activity" none) none
        (some ⟨500, "err"⟩)).2 =
      [Action.callAuthz "activity" "c:cam:doc",
       Action.bindQueue "c:cam:doc#activity",
       Action.writeResponse 1 4 (some ⟨500, "err"⟩)] ∧
    (subscribeStep env0 s0 1 (msgSub 4 "c:cam:doc" "activity" none) none
        (some ⟨500, "err"⟩)).1.perStream = s0.perStream ∧
    (subscribeStep env0 s0 1 (msgSub 4 "c:cam:doc" "activity" none) none
        (some ⟨500, "err"⟩)).1.bindings = s0.bindings ∧
    (subscribeStep env0 s0 1 (msgSub 4 "c:cam:doc" "activity" none) none
        (some ⟨500, "err"⟩)).1.conns 1 =
      some { conn0 with streams := conn0.streams ++ ["c:cam:doc#activity"] } ∧
    (subscribeStep env0 s0 1 (msgSub 4 "c:cam:doc" "activity" none) none none).2 =
      [Action.callAuthz "activity" "c:cam:doc",
       Action.bindQueue "c:cam:doc#activity",
       Action.writeResponse 1 4 none] ∧
    alookup (subscribeStep env0 s0 1 (msgSub 4 "c:cam:doc" "activity" none)
        none none).1.perStream "c:cam:doc#activity" = some [1] :=
  C7_bind_outcome env0 s0 1 (msgSub 4 "c:cam:doc" "activity" none) conn0
    ⟨some ⟨"c:cam:doc", "activity"⟩, none, none⟩ ⟨"c:cam:doc", "activity"⟩
    ⟨500, "err"⟩ (by decide) rfl rfl (by decide) (by decide) (by decide)
    (by decide) (by decide)

/-- C10 (confirmed): a valid subscribe that omits the `format` field is
accepted with the internal transformer type recorded as its transform kind,
and every frame later delivered for that subscription carries the internal
transformer type in its `format` field. -/
theorem C10_default_format (env : Env) (s : PushState) (sid : Nat)
    (c : ConnInfo) (r st : String) (id1 : Nat) (data : PushData) (tf : Transform)
    (a : List Activity) (tok : Option String)
    (hc : s.conns sid = some c) (hsock : c.sockId = sid)
    (hr : r ≠ "") (hst : st ≠ "") (hauthz : env.hasAuthz st)
    (hfresh : createActivityStreamId r st ∉ c.streams)
    (hfreshT : alookup c.transformerTypes (createActivityStreamId r st) = none)
    (hfreshPS : alookup s.perStream (createActivityStreamId r st) = none)
    (hdr : data.resourceId = r) (hds : data.streamType = st)
    (htf : tf c.ctx data.activities internalTransformerType = some a) :
    ∃ c', (subscribeStep env s sid ⟨id1, some ⟨some ⟨r, st⟩, none, tok⟩⟩
        none none).1.conns sid = some c' ∧
      alookup c'.transformerTypes (createActivityStreamId r st) =
        some [internalTransformerType] ∧
      writesTo sid (handlePushActivity
        (subscribeStep env s sid ⟨id1, some ⟨some ⟨r, st⟩, none, tok⟩⟩
          none none).1 data tf) =
        [mkPushFrame data a internalTransformerType] ∧
      (mkPushFrame data a internalTransformerType).format =
        internalTransformerType := by
  have h1 : ¬((⟨r, st⟩ : StreamRef).resourceId = "" ∨
      (⟨r, st⟩ : StreamRef).streamType = "") := by
    simp [hr, hst]
  have hok := subscribe_fresh_ok env s sid ⟨id1, some ⟨some ⟨r, st⟩, none, tok⟩⟩ c
    ⟨some ⟨r, st⟩, none, tok⟩ ⟨r, st⟩ hc rfl rfl h1 (badFormat_none env) hauthz
    hfresh hfreshPS
  obtain ⟨hacts, hconn, hother, hps, hpso, hbind⟩ := hok
  refine ⟨pushTransformer
      { c with streams := c.streams ++ [createActivityStreamId r st] }
      (createActivityStreamId r st) internalTransformerType, hconn, ?_, ?_, rfl⟩
  · rw [pushTransformer_lookup]
    simp only [pushTransformer]
    rw [show ({ c with streams := c.streams ++ [createActivityStreamId r st] }
        : ConnInfo).transformerTypes = c.transformerTypes from rfl]
    rw [hfreshT]
    rfl
  · have hgp := gatherPairs_single
      (subscribeStep env s sid ⟨id1, some ⟨some ⟨r, st⟩, none, tok⟩⟩ none none).1
      (createActivityStreamId r st) sid
      (pushTransformer { c with streams := c.streams ++ [createActivityStreamId r st] }
        (createActivityStreamId r st) internalTransformerType)
      hps hconn
    have hlook : alookup (pushTransformer
        { c with streams := c.streams ++ [createActivityStreamId r st] }
        (createActivityStreamId r st) internalTransformerType).transformerTypes
        (createActivityStreamId r st) = some [internalTransformerType] := by
      rw [pushTransformer_lookup]
      rw [show ({ c with streams := c.streams ++ [createActivityStreamId r st] }
          : ConnInfo).transformerTypes = c.transformerTypes from rfl]
      rw [hfreshT]
      rfl
    simp only [handlePushActivity, hdr, hds]
    rw [hgp, hlook]
    simp only [Option.getD_some, List.map_cons, List.map_nil, List.length_cons,
      List.length_nil]
    have hctx : (pushTransformer
        { c with streams := c.streams ++ [createActivityStreamId r st] }
        (createActivityStreamId r st) internalTransformerType).ctx = c.ctx := rfl
    simp only [deliverLoop, hctx, htf]
    have hsock2 : (pushTransformer
        { c with streams := c.streams ++ [createActivityStreamId r st] }
        (createActivityStreamId r st) internalTransformerType).sockId = sid := by
      rw [pushTransformer_sockId]
      exact hsock
    simp [writesTo, hsock2, hsock]

/-- C10 witness: the default-format theorem applied at a fresh connection,
stream `c:cam:doc#activity` and the identity transform. -/
theorem C10_witness :
    ∃ c', (subscribeStep env0 s0 1
        ⟨5, some ⟨some ⟨"c:cam:doc", "activity"⟩, none, none⟩⟩
        none none).1.conns 1 = some c' ∧
      alookup c'.transformerTypes (createActivityStreamId "c:cam:doc" "activity") =
        some [internalTransformerType] ∧
      writesTo 1 (handlePushActivity
        (subscribeStep env0 s0 1
          ⟨5, some ⟨some ⟨"c:cam:doc", "activity"⟩, none, none⟩⟩
          none none).1 data0 tf0) =
        [mkPushFrame data0 data0.activities internalTransformerType] ∧
      (mkPushFrame data0 data0.activities internalTransformerType).format =
        internalTransformerType :=
  C10_default_format env0 s0 1 conn0 "c:cam:doc" "activity" 5 data0 tf0
    data0.activities none (by decide) (by decide) (by decide) (by decide)
    (by decide) (by decide) (by decide) (by decide) (by decide) (by decide) rfl

/-- C5 (confirmed): one connection subscribing the same (resourceId,
streamType) twice under two different registered formats retains both
transform kinds, triggers exactly one broker bind for the topic (the second
subscribe succeeds without touching the broker), and an incoming broker
message for the stream produces two independently transformed deliveries to
that connection, one per format. -/
theorem C5_two_formats (env : Env) (s : PushState) (sid : Nat) (c : ConnInfo)
    (r st f1 f2 : String) (id1 id2 : Nat) (tok : Option String)
    (data : PushData) (tf : Transform) (a1 a2 : List Activity)
    (hc : s.conns sid = some c) (hsock : c.sockId = sid)
    (hr : r ≠ "") (hst : st ≠ "")
    (hf1 : f1 ∈ env.validFormats) (hf2 : f2 ∈ env.validFormats)
    (hf1e : f1 ≠ "") (hf2e : f2 ≠ "") (_hff : f1 ≠ f2)
    (hauthz : env.hasAuthz st)
    (hfresh : createActivityStreamId r st ∉ c.streams)
    (hfreshT : alookup c.transformerTypes (createActivityStreamId r st) = none)
    (hfreshPS : alookup s.perStream (createActivityStreamId r st) = none)
    (hdr : data.resourceId = r) (hds : data.streamType = st)
    (htf1 : tf c.ctx data.activities f1 = some a1)
    (htf2 : tf c.ctx data.activities f2 = some a2) :
    (subscribeStep env s sid ⟨id1, some ⟨some ⟨r, st⟩, some f1, tok⟩⟩
        none none).2 =
      [Action.callAuthz st r,
       Action.bindQueue (createActivityStreamId r st),
       Action.writeResponse sid id1 none] ∧
    (subscribeStep env
        (subscribeStep env s sid ⟨id1, some ⟨some ⟨r, st⟩, some f1, tok⟩⟩
          none none).1
        sid ⟨id2, some ⟨some ⟨r, st⟩, some f2, tok⟩⟩ none none).2 =
      [Action.callAuthz st r, Action.writeResponse sid id2 none] ∧
    touchesBroker (subscribeStep env
        (subscribeStep env s sid ⟨id1, some ⟨some ⟨r, st⟩, some f1, tok⟩⟩
          none none).1
        sid ⟨id2, some ⟨some ⟨r, st⟩, some f2, tok⟩⟩ none none).2 = false ∧
    countBind ((subscribeStep env s sid ⟨id1, some ⟨some ⟨r, st⟩, some f1, tok⟩⟩
          none none).2 ++
        (subscribeStep env
          (subscribeStep env s sid ⟨id1, some ⟨some ⟨r, st⟩, some f1, tok⟩⟩
            none none).1
          sid ⟨id2, some ⟨some ⟨r, st⟩, some f2, tok⟩⟩ none none).2)
      (createActivityStreamId r st) = 1 ∧
    (∃ c2, (subscribeStep env
        (subscribeStep env s sid ⟨id1, some ⟨some ⟨r, st⟩, some f1, tok⟩⟩
          none none).1
        sid ⟨id2, some ⟨some ⟨r, st⟩, some f2, tok⟩⟩ none none).1.conns sid =
          some c2 ∧
      alookup c2.transformerTypes (createActivityStreamId r st) = some [f1, f2]) ∧
    writesTo sid (handlePushActivity
      (subscribeStep env
        (subscribeStep env s sid ⟨id1, some ⟨some ⟨r, st⟩, some f1, tok⟩⟩
          none none).1
        sid ⟨id2, some ⟨some ⟨r, st⟩, some f2, tok⟩⟩ none none).1 data tf) =
      [mkPushFrame data a1 f1, mkPushFrame data a2 f2] := by
  have h1 : ¬((⟨r, st⟩ : StreamRef).resourceId = "" ∨
      (⟨r, st⟩ : StreamRef).streamType = "") := by
    simp [hr, hst]
  have hbf1 : ¬ badFormat env (some f1) := badFormat_valid env f1 hf1e hf1
  have hbf2 : ¬ badFormat env (some f2) := badFormat_valid env f2 hf2e hf2
  have hfm1 : ((fmtOf (some f1)).getD internalTransformerType) = f1 := by
    rw [fmtOf_some f1 hf1e]
    rfl
  have hfm2 : ((fmtOf (some f2)).getD internalTransformerType) = f2 := by
    rw [fmtOf_some f2 hf2e]
    rfl
  have hok := subscribe_fresh_ok env s sid ⟨id1, some ⟨some ⟨r, st⟩, some f1, tok⟩⟩
    c ⟨some ⟨r, st⟩, some f1, tok⟩ ⟨r, st⟩ hc rfl rfl h1 hbf1 hauthz hfresh hfreshPS
  obtain ⟨hacts1, hconn1, _, hps1, _, _⟩ := hok
  rw [hfm1] at hconn1
  have hmem2 : createActivityStreamId r st ∈
      (pushTransformer { c with streams := c.streams ++ [createActivityStreamId r st] }
        (createActivityStreamId r st) f1).streams := by
    rw [pushTransformer_streams]
    exact List.mem_append_right _ (List.mem_singleton_self _)
  have hdup := subscribe_dup env
    (subscribeStep env s sid ⟨id1, some ⟨some ⟨r, st⟩, some f1, tok⟩⟩ none none).1
    sid ⟨id2, some ⟨some ⟨r, st⟩, some f2, tok⟩⟩
    (pushTransformer { c with streams := c.streams ++ [createActivityStreamId r st] }
      (createActivityStreamId r st) f1)
    ⟨some ⟨r, st⟩, some f2, tok⟩ ⟨r, st⟩ none hconn1 rfl rfl h1 hbf2 hauthz hmem2
  obtain ⟨hacts2, hconn2, _, hpseq, _⟩ := hdup
  rw [hfm2] at hconn2
  have hlookB : alookup (pushTransformer
      (pushTransformer { c with streams := c.streams ++ [createActivityStreamId r st] }
        (createActivityStreamId r st) f1)
      (createActivityStreamId r st) f2).transformerTypes
      (createActivityStreamId r st) = some [f1, f2] := by
    rw [pushTransformer_lookup, pushTransformer_lookup]
    rw [show ({ c with streams := c.streams ++ [createActivityStreamId r st] }
        : ConnInfo).transformerTypes = c.transformerTypes from rfl]
    rw [hfreshT]
    rfl
  refine ⟨hacts1, hacts2, ?_, ?_, ⟨_, hconn2, hlookB⟩, ?_⟩
  · rw [hacts2]
    rfl
  · rw [hacts1, hacts2]
    simp [countBind]
  · have hps2 : alookup (subscribeStep env
        (subscribeStep env s sid ⟨id1, some ⟨some ⟨r, st⟩, some f1, tok⟩⟩
          none none).1
        sid ⟨id2, some ⟨some ⟨r, st⟩, some f2, tok⟩⟩ none none).1.perStream
        (createActivityStreamId r st) = some [sid] := by
      rw [hpseq]
      exact hps1
    have hgp := gatherPairs_single _ (createActivityStreamId r st) sid _ hps2 hconn2
    simp only [handlePushActivity, hdr, hds]
    rw [hgp, hlookB]
    have hctxB : (pushTransformer
        (pushTransformer { c with streams := c.streams ++ [createActivityStreamId r st] }
          (createActivityStreamId r st) f1)
        (createActivityStreamId r st) f2).ctx = c.ctx := rfl
    have hsockB : (pushTransformer
        (pushTransformer { c with streams := c.streams ++ [createActivityStreamId r st] }
          (createActivityStreamId r st) f1)
        (createActivityStreamId r st) f2).sockId = sid := by
      rw [pushTransformer_sockId, pushTransformer_sockId]
      exact hsock
    simp only [Option.getD_some, List.map_cons, List.map_nil, List.length_cons,
      List.length_nil]
    simp [deliverLoop, hctxB, htf1, htf2, writesTo, hsockB, hsock]

/-- C5 witness: the two-format theorem applied at a fresh connection, with
formats `activitystreams` and `internal` and the identity transform. -/
theorem C5_witness :
    countBind ((subscribeStep env0 s0 1
          ⟨1, some ⟨some ⟨"c:cam:doc", "activity"⟩, some "activitystreams", none⟩⟩
          none none).2 ++
        (subscribeStep env0
          (subscribeStep env0 s0 1
            ⟨1, some ⟨some ⟨"c:cam:doc", "activity"⟩, some "activitystreams", none⟩⟩
            none none).1
          1 ⟨2, some ⟨some ⟨"c:cam:doc", "activity"⟩, some internalTransformerType, none⟩⟩
          none none).2)
      (createActivityStreamId "c:cam:doc" "activity") = 1 ∧
    writesTo 1 (handlePushActivity
      (subscribeStep env0
        (subscribeStep env0 s0 1
          ⟨1, some ⟨some ⟨"c:cam:doc", "activity"⟩, some "activitystreams", none⟩⟩
          none none).1
        1 ⟨2, some ⟨some ⟨"c:cam:doc", "activity"⟩, some internalTransformerType, none⟩⟩
        none none).1 data0 tf0) =
      [mkPushFrame data0 data0.activities "activitystreams",
       mkPushFrame data0 data0.activities internalTransformerType] := by
  have h := C5_two_formats env0 s0 1 conn0 "c:cam:doc" "activity"
    "activitystreams" internalTransformerType 1 2 none data0 tf0
    data0.activities data0.activities (by decide) (by decide) (by decide)
    (by decide) (by decide) (by decide) (by decide) (by decide) (by decide)
    (by decide) (by decide) (by decide) (by decide) (by decide) (by decide)
    rfl rfl
  exact ⟨h.2.2.2.1, h.2.2.2.2.2⟩

/-- C4 (amended): the binding-iff-nonempty invariant holds and is preserved
by the subscribe handler and the close handler; on disconnect the unbind
decision is made by the length of the stream's local list — a single-entry
list triggers an unbind and removal of the entry (even when, after an
earlier failed bind left a stale stream id on the closing connection, that
single entry is another connection), and a longer list only splices the
closing socket out with no broker call. -/
theorem C4_binding_refcount (env : Env) (s : PushState) (sid : Nat) (m : SubMsg)
    (authzRes bindRes : Option ErrObj) (c : ConnInfo)
    (hc : s.conns sid = some c) (hnd : c.streams.Nodup) (hwf : WfState s) :
    (∀ st, st ∈ s.bindings ↔ streamListOf s st ≠ []) ∧
    WfState (subscribeStep env s sid m authzRes bindRes).1 ∧
    WfState (closeStep s sid).1 ∧
    (∀ st ∈ c.streams, ∀ ll, alookup s.perStream st = some ll →
      ((ll.length = 1 →
          Action.unbindQueue st ∈ (closeStep s sid).2 ∧
          alookup (closeStep s sid).1.perStream st = none) ∧
       (ll.length ≠ 1 →
          Action.unbindQueue st ∉ (closeStep s sid).2 ∧
          alookup (closeStep s sid).1.perStream st = some (ll.erase sid)))) := by
  refine ⟨wf_binding_iff s hwf,
    wfState_subscribeStep env s sid m authzRes bindRes hwf,
    wfState_closeStep s sid hwf, ?_⟩
  intro st hst ll hll
  have hcs : closeStep s sid = closeStreams s sid c.streams := by
    simp [closeStep, hc]
  rw [hcs]
  exact closeStreams_spec sid st c.streams s hnd hst hwf.1 ll hll

/-- C4 counterexample: reachable through a failed bind — socket 1's
subscribe to `c:cam:x#activity` hit a bind error (leaving the stream id on
its connection), socket 2 then subscribed successfully; when socket 1
closes, the stream's list is the single entry `[2]`, so an unbind is issued
and the list deleted even though socket 2 (another local connection) is
still subscribed — refuting the claim that no unbind happens while another
connection remains subscribed. -/
theorem C4_counterexample :
    alookup sAfterB.perStream "c:cam:x#activity" = some [2] ∧
    (sAfterB.conns 2).map ConnInfo.streams = some ["c:cam:x#activity"] ∧
    ((sAfterB.conns 2).map
      (fun c => alookup c.transformerTypes "c:cam:x#activity")) =
      some (some [internalTransformerType]) ∧
    Action.unbindQueue "c:cam:x#activity" ∈ (closeStep sAfterB 1).2 ∧
    alookup (closeStep sAfterB 1).1.perStream "c:cam:x#activity" = none := by
  exact ⟨by decide, by decide, by decide, by decide, by decide⟩

/-- C4 witness: the close-handler branch facts and invariant preservation
applied at a concrete single-subscriber state. -/
theorem C4_witness :
    (Action.unbindQueue "r#a" ∈ (closeStep sW 1).2 ∧
     alookup (closeStep sW 1).1.perStream "r#a" = none) ∧
    WfState (closeStep sW 1).1 := by
  have h := C4_binding_refcount env0 sW 1 (msgSub 9 "q" "b" none) none none _
    rfl (by decide) (by decide)
  exact ⟨(h.2.2.2 "r#a" (by decide) [1] (by decide)).1 (by decide), h.2.2.1⟩

end Push
